import Mathlib

/-!
Event management console (`main.js`): workflow handlers

A shallow embedding of the click/submit handlers of `main.js` and of the
continuations that run when their remote calls resolve.

* The page is a record `AppState`: the cache `state.events` / `state.sponsors`,
  the `hidden` flag of the backdrop and of each modal, the content of the
  reusable info modal, the create-event form, the toasts shown so far, the
  remote calls issued so far (`requests`) and the calls still in flight
  (`pending`).
* An `async` handler is split at its `await`: the part before it is a function
  `AppState → AppState` that records the request and a `Pending` continuation,
  the part after it is a function of the `Response`.
* `parseInt` is modelled on the characters of the string and yields the
  integer it reads (`Option Int`, `none` for NaN); `parseIntNumber` is the
  IEEE double it returns (`JsNumber`), and sums of seat counts are sums of
  doubles. A price read with `parseFloat` is carried as the number it parsed
  to (`JsFloat`), and the product `Math.random() * length` is rounded to a
  double (`roundToDouble`).
* Timers (the five second life of a toast) are not modelled: `toasts` lists
  every toast shown, oldest first.
-/

namespace EventManagement

/-! ## JavaScript values -/

/-- `StrWhiteSpaceChar`: the characters skipped by `parseInt` and removed by
`String.prototype.trim` (white space and line terminators). -/
def isStrWhiteSpaceChar (c : Char) : Bool :=
  let n := c.toNat
  n == 0x09 || n == 0x0A || n == 0x0B || n == 0x0C || n == 0x0D || n == 0x20 ||
  n == 0xA0 || n == 0x1680 || (0x2000 ≤ n && n ≤ 0x200A) || n == 0x2028 ||
  n == 0x2029 || n == 0x202F || n == 0x205F || n == 0x3000 || n == 0xFEFF

/-- Value of `c` as a digit in the given radix, if it is one. -/
def digitValue (radix : Nat) (c : Char) : Option Nat :=
  let n := c.toNat
  let v : Option Nat :=
    if 48 ≤ n ∧ n ≤ 57 then some (n - 48)
    else if 97 ≤ n ∧ n ≤ 122 then some (n - 87)
    else if 65 ≤ n ∧ n ≤ 90 then some (n - 55)
    else none
  v.filter (fun d => d < radix)

/-- The longest leading run of radix digits, as digit values. -/
def takeDigits (radix : Nat) : List Char → List Nat
  | [] => []
  | c :: cs =>
    match digitValue radix c with
    | some d => d :: takeDigits radix cs
    | none => []

/-- `parseInt(string)` with no radix argument, on the characters of the string:
skip leading white space, read a sign, strip a `0x`/`0X` marker (radix 16,
otherwise radix 10), read the longest run of digits; `none` is NaN. -/
def parseIntChars (cs : List Char) : Option Int :=
  let s0 := cs.dropWhile isStrWhiteSpaceChar
  let signed : Int × List Char :=
    match s0 with
    | '-' :: r => (-1, r)
    | '+' :: r => (1, r)
    | _ => (1, s0)
  let based : Nat × List Char :=
    match signed.2 with
    | '0' :: 'x' :: r => (16, r)
    | '0' :: 'X' :: r => (16, r)
    | _ => (10, signed.2)
  let z := takeDigits based.1 based.2
  if z.isEmpty then none
  else some (signed.1 * ((z.foldl (fun acc d => acc * based.1 + d) 0 : Nat) : Int))

/-- `parseInt(value)` of an input's value, as the integer it reads: the sign
times the value of the digits (`none` when there is no digit, where `parseInt`
returns NaN). The number `parseInt` returns is the double nearest to this
integer, see `parseIntNumber`; it has the same sign and is zero exactly when
the integer is. -/
def parseInt (value : String) : Option Int :=
  parseIntChars value.data

/-- A JavaScript number whose value is NaN, an infinity or an integer-valued
double (both zeros are `finite 0`): the numbers `parseInt` returns and the
sums of such numbers. -/
inductive JsNumber where
  | nan
  | infinity (negative : Bool)
  | finite (n : Int)
  deriving DecidableEq

/-- How many low bits of `m` do not fit the 53-bit significand of a double,
found by halving `m` until it is below `2^53` (at most `fuel` times): `0` when
`m < 2^53`, otherwise the `e` with `2^(52+e) ≤ m < 2^(53+e)`. -/
def excessBits : Nat → Nat → Nat
  | 0, _ => 0
  | fuel + 1, m => if m < 2 ^ 53 then 0 else excessBits fuel (m / 2) + 1

/-- The double nearest to the natural number `m`, ties going to the even
significand, as a natural number; a result of `2^1024` or more stands for an
overflow. -/
def roundNatToDouble (m : Nat) : Nat :=
  let e := excessBits m m
  if e = 0 then m
  else
    let q := m / 2 ^ e
    let r := m % 2 ^ e
    let half := 2 ^ (e - 1)
    if r < half then q * 2 ^ e
    else if half < r then (q + 1) * 2 ^ e
    else if q % 2 = 0 then q * 2 ^ e
    else (q + 1) * 2 ^ e

/-- The Number value of the integer `n`: the nearest double, or an infinity
when that is `2^1024` or more in magnitude (`y >>> 1024` is `y / 2^1024`). -/
def JsNumber.ofInt (n : Int) : JsNumber :=
  let y := roundNatToDouble n.natAbs
  if 0 < y >>> 1024 then .infinity (decide (n < 0))
  else .finite (if n < 0 then -(y : Int) else (y : Int))

/-- The number `parseInt` returns for the integer it read (NaN for none). -/
def toNumber : Option Int → JsNumber
  | none => .nan
  | some n => JsNumber.ofInt n

/-- The number `parseInt(value)` returns for an input's value. For more than
20 significant digits ECMAScript lets an engine approximate the digits read;
the model takes the correctly rounded value. -/
def parseIntNumber (value : String) : JsNumber :=
  toNumber (parseInt value)

/-- `a + b` on numbers. -/
def JsNumber.add : JsNumber → JsNumber → JsNumber
  | .nan, _ => .nan
  | _, .nan => .nan
  | .infinity a, .infinity b => if a = b then .infinity a else .nan
  | .infinity a, .finite _ => .infinity a
  | .finite _, .infinity b => .infinity b
  | .finite a, .finite b => JsNumber.ofInt (a + b)

/-- `a !== b` on numbers (NaN differs from everything, itself included). -/
def JsNumber.strictNe : JsNumber → JsNumber → Bool
  | .nan, _ => true
  | _, .nan => true
  | .infinity a, .infinity b => a != b
  | .infinity _, .finite _ => true
  | .finite _, .infinity _ => true
  | .finite a, .finite b => a != b

/-- Truthiness of a number: false for NaN and zero. -/
def JsNumber.truthy : JsNumber → Bool
  | .nan => false
  | .infinity _ => true
  | .finite n => n != 0

/-- `a <= 0` on a number that is an integer or NaN (false for NaN). -/
def jsLeZero (a : Option Int) : Bool :=
  match a with
  | some x => decide (x ≤ 0)
  | none => false

/-- A number produced by `parseFloat` or received from the service: NaN, a
finite double (as the rational it denotes, so both zeros are `finite 0`) or an
infinity. -/
inductive JsFloat where
  | nan
  | finite (q : ℚ)
  | infinity (negative : Bool)
  deriving DecidableEq

/-- Truthiness of a `JsFloat`: false for NaN and zero. -/
def JsFloat.truthy : JsFloat → Bool
  | .nan => false
  | .finite q => q != 0
  | .infinity _ => true

/-- The integer nearest to `q`, a tie going to the even one. -/
def roundHalfEven (q : ℚ) : Int :=
  if q - ⌊q⌋ < 1 / 2 then ⌊q⌋
  else if 1 / 2 < q - ⌊q⌋ then ⌊q⌋ + 1
  else if ⌊q⌋ % 2 = 0 then ⌊q⌋
  else ⌊q⌋ + 1

/-- The exponent of the last place of the doubles around a positive `x`: 52
below the exponent of `x` (`Int.log 2 x` is the floor of its binary logarithm),
and never below that of the subnormal doubles, -1074. -/
def ulpExponent (x : ℚ) : Int :=
  max (Int.log 2 x - 52) (-1074)

/-- The IEEE 754 double nearest to the rational `x`, ties going to the even
significand: the magnitude is rounded to a multiple of its last place, and a
result of `2^1024` or more is an infinity. -/
def roundToDouble (x : ℚ) : JsFloat :=
  if x = 0 then .finite 0
  else
    let e := ulpExponent |x|
    let y := (roundHalfEven (|x| / 2 ^ e) : ℚ) * 2 ^ e
    if 2 ^ 1024 ≤ y then .infinity (decide (x < 0))
    else .finite (if x < 0 then -y else y)

/-- `string.trim()`. -/
def jsTrim (s : String) : String :=
  ⟨((s.data.dropWhile isStrWhiteSpaceChar).reverse.dropWhile isStrWhiteSpaceChar).reverse⟩

/-- The test `/^\d{10}$/.test(phone)`: ten characters, each one of `0`..`9`. -/
def isTenDigits (phone : String) : Bool :=
  phone.data.length == 10 && phone.data.all (fun c => 48 ≤ c.toNat && c.toNat ≤ 57)

/-! ## Records exchanged with the remote service -/

/-- A seating tier of an event as the service returns it. -/
structure Tier where
  id : Int
  name : String
  price : JsFloat
  total_seats : Int
  seats_sold : Int
  deriving DecidableEq

/-- A sponsor as the service returns it. -/
structure Sponsor where
  id : Int
  name : String
  deriving DecidableEq

/-- An event as the service returns it. -/
structure Event where
  id : Int
  title : String
  description : String
  start_time : String
  end_time : String
  total_collection : JsFloat
  tiers : List Tier
  sponsors : List Sponsor
  deriving DecidableEq

/-- One row of the bookings table. -/
structure Booking where
  user_phone : String
  tier_name : String
  qty : Int
  ticket_hash : String
  deriving DecidableEq

/-- Result of a successful `POST /book`. -/
structure BookingResult where
  ticket_hash : String
  price_paid : JsFloat
  deriving DecidableEq

/-- Result of a successful `GET /verify/hash`. -/
structure TicketDetails where
  event_title : String
  user_phone : String
  qty : Int
  ticket_hash : String
  deriving DecidableEq

/-- A tier as `handleCreateEvent` reads it from a `.tier-group` row. -/
structure TierData where
  name : String
  price : JsFloat
  total_seats : JsNumber
  deriving DecidableEq

/-- The body of `POST /events`. -/
structure EventData where
  title : String
  description : String
  location : String
  start_time : String
  end_time : String
  tiers : List TierData
  sponsor_ids : List JsNumber
  deriving DecidableEq

/-- The remote calls of the `api` object that some handler issues. -/
inductive Request where
  | getEvents
  | createEvent (data : EventData)
  | deleteEvent (id : Int)
  | createSponsor (name website : String)
  | getSponsors
  | getBookings (eventId : Int)
  | bookTicket (user_phone : String) (event_id : Int) (tier_id : String) (qty : Option Int)
  | verifyTicket (hash : String)
  deriving DecidableEq

/-- What `fetch` and the body of `api.request` can meet for one call:
`ok value` is a response with `response.ok` (value is the parsed body, or
`null` on status 204); `notOk detail` is a response without `response.ok`
whose JSON body has `detail` (`none` when the field is absent or a falsy
non-string); `thrown message` is `fetch` or `response.json()` rejecting with
an error of that message. -/
inductive Response (α : Type) where
  | ok (value : α)
  | notOk (detail : Option String)
  | thrown (message : String)
  deriving DecidableEq

/-- The result of `api.request`: the returned value, or the message of the
error it rethrows (`errorData.detail || 'An unknown error occurred'`). -/
def apiResult {α : Type} : Response α → Except String α
  | .ok v => .ok v
  | .notOk (some d) => .error (if d.isEmpty then "An unknown error occurred" else d)
  | .notOk none => .error "An unknown error occurred"
  | .thrown m => .error m

/-! ## The page -/

/-- Severity of a toast (the `type` argument of `showToast`). -/
inductive ToastType where
  | success
  | error
  | info
  deriving DecidableEq

/-- A toast appended to `#toastContainer`. -/
structure Toast where
  message : String
  type : ToastType
  deriving DecidableEq

/-- The three modal surfaces of the page. -/
inductive Modal where
  | createEventModal
  | infoModal
  | bookingsModal
  deriving DecidableEq

/-- What the last `showInfoModal` call put in the info modal (title, content
and actions), with the current values of the inputs it created. Every content
but `empty` has a `.close-modal-btn`; `confirmDeletion` has `#confirmDeleteBtn`
whose listener closes over `eventId`; `phoneEntry` has `#phoneInput` and
`#confirmBookBtn` whose listener closes over `eventId`, `tierId` and `qty`;
`verifyEntry` has `#verifyHashInput` and `#confirmVerifyBtn`; `addSponsor` has
`#newSponsorName`, `#newSponsorWebsite` and `#saveSponsorBtn`. -/
inductive InfoModalContent where
  | empty
  | confirmDeletion (eventId : Int) (eventTitle : String)
  | phoneEntry (eventId : Int) (tierId : String) (qty : Option Int)
      (phoneInput : String) (confirmDisabled : Bool) (confirmText : String)
  | verifyEntry (verifyHashInput : String)
  | ticketVerified (details : TicketDetails)
  | bookingSuccessful (bookingDetails : BookingResult)
  | addSponsor (newSponsorName newSponsorWebsite : String)
  deriving DecidableEq

/-- Content of `#bookingsModalContent`. -/
inductive BookingsContent where
  | empty
  | loading
  | noBookings
  | table (bookings : List Booking)
  | failed
  deriving DecidableEq

/-- Content of `#eventsGrid`: as the page markup has it, the cards drawn by
`renderEvents` (the empty-state paragraph when the list is empty), or the
paragraph written when loading failed. -/
inductive EventsGrid where
  | markup
  | cards (events : List Event)
  | loadError
  deriving DecidableEq

/-- The named fields of `#createEventForm`. `total_seats_for_event` is the one
input that `handleCreateEvent` reads through `form.elements` and the randomize
handler reads through `getElementById`. -/
structure CreateEventForm where
  title : String
  description : String
  location : String
  start_time : String
  end_time : String
  total_seats_for_event : String
  deriving DecidableEq

/-- A `.tier-group` row of `#tiersContainer`: the value of `.tier-name`, the
number `parseFloat` reads from the value of `.tier-price`, and the value of
`.tier-seats`. -/
structure TierGroup where
  name : String
  price : JsFloat
  seats : String
  deriving DecidableEq

/-- A `.sponsor-checkbox` drawn by `renderSponsors`. -/
structure SponsorCheckbox where
  value : String
  checked : Bool
  deriving DecidableEq

/-- One side of the `Promise.all` of `initializeApp`. -/
inductive Slot (α : Type) where
  | waiting
  | fulfilled (value : α)
  | rejected
  deriving DecidableEq

/-- A suspended `await`: which continuation runs when the call resolves.
`bookTicket target` remembers the button node `e.target` by the number of the
`showInfoModal` call that created it; `initializeApp` holds both sides of its
`Promise.all`. -/
inductive Pending where
  | createEvent
  | deleteEvent
  | bookTicket (target : Nat)
  | verifyTicket
  | createSponsor
  | getSponsors
  | getBookings
  | initializeApp (events : Slot (List Event)) (sponsors : Slot (List Sponsor))
  deriving DecidableEq

/-- The page and the cache. `infoModalNodes` counts the `showInfoModal` calls
made so far, so it names the nodes currently inside the info modal.
`formDefaults` are the values `form.reset()` restores and `sponsorsInForm`
tells whether `#sponsorsContainer` lies inside the form (both from the page
markup). -/
structure AppState where
  events : List Event
  sponsors : List Sponsor
  modalBackdropHidden : Bool
  createEventModalHidden : Bool
  infoModalHidden : Bool
  bookingsModalHidden : Bool
  infoModal : InfoModalContent
  infoModalNodes : Nat
  bookingsModalTitle : String
  bookingsModalContent : BookingsContent
  createEventForm : CreateEventForm
  formDefaults : CreateEventForm
  sponsorsInForm : Bool
  submitBtnDisabled : Bool
  submitBtnText : String
  tiersContainer : List TierGroup
  sponsorsContainer : List SponsorCheckbox
  eventsGrid : EventsGrid
  toasts : List Toast
  requests : List Request
  pending : List Pending
  deriving DecidableEq

/-! ## UI utilities -/

/-- `showToast(message, type)`. -/
def showToast (message : String) (type : ToastType) (s : AppState) : AppState :=
  { s with toasts := s.toasts ++ [⟨message, type⟩] }

/-- Sets the `hidden` class of one modal. -/
def setModalHidden (modal : Modal) (hidden : Bool) (s : AppState) : AppState :=
  match modal with
  | .createEventModal => { s with createEventModalHidden := hidden }
  | .infoModal => { s with infoModalHidden := hidden }
  | .bookingsModal => { s with bookingsModalHidden := hidden }

/-- `openModal(modal)`. -/
def openModal (modal : Modal) (s : AppState) : AppState :=
  setModalHidden modal false { s with modalBackdropHidden := false }

/-- `closeModal(modal)`. -/
def closeModal (modal : Modal) (s : AppState) : AppState :=
  setModalHidden modal true { s with modalBackdropHidden := true }

/-- `showInfoModal(title, content, actions)`: replaces the nodes of the info
modal and opens it. -/
def showInfoModal (content : InfoModalContent) (s : AppState) : AppState :=
  openModal .infoModal { s with infoModal := content, infoModalNodes := s.infoModalNodes + 1 }

/-- `renderSponsors()`: one unchecked checkbox per cached sponsor. -/
def renderSponsors (s : AppState) : AppState :=
  { s with sponsorsContainer := s.sponsors.map (fun sp => ⟨toString sp.id, false⟩) }

/-- `renderEvents()`. -/
def renderEvents (s : AppState) : AppState :=
  { s with eventsGrid := .cards s.events }

/-- Issuing `api.request`: the call is recorded and the caller suspends. -/
def issue (req : Request) (s : AppState) : AppState :=
  { s with requests := s.requests ++ [req] }

/-- Registers a suspended continuation. -/
def suspend (p : Pending) (s : AppState) : AppState :=
  { s with pending := s.pending ++ [p] }

/-! ## Handlers -/

/-- `initializeApp()` up to its `await`: both list calls are issued. -/
def initializeApp (s : AppState) : AppState :=
  suspend (.initializeApp .waiting .waiting) (issue .getSponsors (issue .getEvents s))

/-- The `try` body of `initializeApp` after both calls fulfilled. -/
def initializeAppLoaded (events : List Event) (sponsors : List Sponsor) (s : AppState) :
    AppState :=
  renderSponsors (renderEvents { s with events := events, sponsors := sponsors })

/-- The `catch` of `initializeApp`. -/
def initializeAppFailed (s : AppState) : AppState :=
  { s with eventsGrid := .loadError }

/-- The object `handleCreateEvent` builds from one `.tier-group`. -/
def readTier (g : TierGroup) : TierData :=
  { name := g.name, price := g.price, total_seats := parseIntNumber g.seats }

/-- The filter `t => t.name && t.price && t.total_seats`. -/
def tierComplete (t : TierData) : Bool :=
  !t.name.isEmpty && t.price.truthy && t.total_seats.truthy

/-- The `tiers` array of `handleCreateEvent`. -/
def readTiers (groups : List TierGroup) : List TierData :=
  (groups.map readTier).filter tierComplete

/-- The reduction `tiers.reduce((sum, tier) => sum + tier.total_seats, 0)`. -/
def totalTierSeats (tiers : List TierData) : JsNumber :=
  tiers.foldl (fun sum tier => sum.add tier.total_seats) (.finite 0)

/-- The `sponsor_ids` array: `parseInt` of the value of each checked box. -/
def readSponsorIds (boxes : List SponsorCheckbox) : List JsNumber :=
  (boxes.filter (fun cb => cb.checked)).map (fun cb => parseIntNumber cb.value)

/-- The `eventData` object of `handleCreateEvent`. -/
def readEventData (s : AppState) : EventData :=
  { title := s.createEventForm.title
    description := s.createEventForm.description
    location := s.createEventForm.location
    start_time := s.createEventForm.start_time
    end_time := s.createEventForm.end_time
    tiers := readTiers s.tiersContainer
    sponsor_ids := readSponsorIds s.sponsorsContainer }

/-- `handleCreateEvent(e)` up to `await api.createEvent(eventData)`. -/
def handleCreateEvent (s : AppState) : AppState :=
  let s1 := { s with submitBtnDisabled := true, submitBtnText := "Creating..." }
  let tiers := readTiers s1.tiersContainer
  let totalEventSeats := parseIntNumber s1.createEventForm.total_seats_for_event
  if (totalTierSeats tiers).strictNe totalEventSeats then
    let s2 := showToast
      "The sum of seats in all tiers must equal the total seats for the event." .error s1
    { s2 with submitBtnDisabled := false, submitBtnText := "Create Event" }
  else
    suspend .createEvent (issue (.createEvent (readEventData s1)) s1)

/-- The rest of `handleCreateEvent` once `api.createEvent` has resolved. -/
def handleCreateEventResume (r : Response Unit) (s : AppState) : AppState :=
  match apiResult r with
  | .ok _ =>
    let s1 := showToast "Event created successfully!" .success s
    let s2 := closeModal .createEventModal s1
    let s3 := { s2 with
      createEventForm := s2.formDefaults
      sponsorsContainer :=
        if s2.sponsorsInForm then
          s2.sponsorsContainer.map (fun (cb : SponsorCheckbox) => { cb with checked := false })
        else s2.sponsorsContainer }
    let s4 := { s3 with tiersContainer := [] }
    let s5 := initializeApp s4
    { s5 with submitBtnDisabled := false, submitBtnText := "Create Event" }
  | .error message =>
    let s1 := showToast message .error s
    { s1 with submitBtnDisabled := false, submitBtnText := "Create Event" }

/-- `handleDeleteEvent(eventId, eventTitle)`: opens the confirmation. -/
def handleDeleteEvent (eventId : Int) (eventTitle : String) (s : AppState) : AppState :=
  showInfoModal (.confirmDeletion eventId eventTitle) s

/-- The click listener of `#confirmDeleteBtn` up to `await api.deleteEvent(eventId)`. -/
def confirmDeleteListener (eventId : Int) (s : AppState) : AppState :=
  suspend .deleteEvent (issue (.deleteEvent eventId) s)

/-- The rest of the `#confirmDeleteBtn` listener once `api.deleteEvent` has
resolved (a rejection ends the listener). -/
def confirmDeleteResume (r : Response Unit) (s : AppState) : AppState :=
  match apiResult r with
  | .ok _ =>
    let s1 := showToast "Event deleted successfully." .info s
    let s2 := closeModal .infoModal s1
    initializeApp s2
  | .error message => showToast message .error s

/-- `handleViewBookings(eventId, eventTitle)` up to `await api.getBookings(eventId)`. -/
def handleViewBookings (eventId : Int) (eventTitle : String) (s : AppState) : AppState :=
  let s1 := { s with bookingsModalTitle := eventTitle, bookingsModalContent := .loading }
  let s2 := openModal .bookingsModal s1
  suspend .getBookings (issue (.getBookings eventId) s2)

/-- The rest of `handleViewBookings` once `api.getBookings` has resolved. -/
def handleViewBookingsResume (r : Response (List Booking)) (s : AppState) : AppState :=
  match apiResult r with
  | .ok bookings =>
    if bookings.length == 0 then { s with bookingsModalContent := .noBookings }
    else { s with bookingsModalContent := .table bookings }
  | .error message =>
    let s1 := showToast message .error s
    { s1 with bookingsModalContent := .failed }

/-- `handleBookTicket(eventId, tierId, qtyInput)`, on the value of `qtyInput`:
the quantity check and the opening of the phone dialog. -/
def handleBookTicket (eventId : Int) (tierId : String) (qtyInputValue : String)
    (s : AppState) : AppState :=
  let qty := parseInt qtyInputValue
  if jsLeZero qty then showToast "Please enter a valid quantity." .error s
  else showInfoModal (.phoneEntry eventId tierId qty "" false "Confirm Booking") s

/-- The click listener of `#confirmBookBtn` up to `await api.bookTicket(...)`.
It reads `#phoneInput` from the document, so it does nothing when the info
modal holds another content. -/
def confirmBookListener (eventId : Int) (tierId : String) (qty : Option Int)
    (s : AppState) : AppState :=
  match s.infoModal with
  | .phoneEntry e t q phone _ _ =>
    if !isTenDigits phone then
      showToast "Please enter a valid 10-digit phone number." .error s
    else
      let s1 := { s with infoModal := .phoneEntry e t q phone true "Booking..." }
      suspend (.bookTicket s1.infoModalNodes) (issue (.bookTicket phone eventId tierId qty) s1)
  | _ => s

/-- `showBookingSuccess(bookingDetails)`. -/
def showBookingSuccess (bookingDetails : BookingResult) (s : AppState) : AppState :=
  showInfoModal (.bookingSuccessful bookingDetails) s

/-- The `catch` of the `#confirmBookBtn` listener: `e.target` is enabled again
and relabelled; it shows only while the button is still in the document. -/
def enableConfirmBook (target : Nat) (s : AppState) : AppState :=
  match s.infoModal with
  | .phoneEntry e t q phone _ _ =>
    if s.infoModalNodes == target then
      { s with infoModal := .phoneEntry e t q phone false "Confirm Booking" }
    else s
  | _ => s

/-- The rest of the `#confirmBookBtn` listener once `api.bookTicket` has resolved. -/
def confirmBookResume (target : Nat) (r : Response BookingResult) (s : AppState) : AppState :=
  match apiResult r with
  | .ok result =>
    let s1 := closeModal .infoModal s
    let s2 := showBookingSuccess result s1
    initializeApp s2
  | .error message =>
    let s1 := showToast message .error s
    enableConfirmBook target s1

/-- `handleVerifyTicket()` up to `await api.verifyTicket(hash)`. It reads
`#verifyHashInput` from the document, so it does nothing when the info modal
holds another content. -/
def handleVerifyTicket (s : AppState) : AppState :=
  match s.infoModal with
  | .verifyEntry verifyHashInput =>
    let hash := jsTrim verifyHashInput
    if hash.isEmpty then showToast "Please enter a ticket hash." .error s
    else suspend .verifyTicket (issue (.verifyTicket hash) s)
  | _ => s

/-- The rest of `handleVerifyTicket` once `api.verifyTicket` has resolved: on
failure `api.request` shows its toast and the `catch` shows the message again. -/
def handleVerifyTicketResume (r : Response TicketDetails) (s : AppState) : AppState :=
  match apiResult r with
  | .ok details =>
    let s1 := closeModal .infoModal s
    showInfoModal (.ticketVerified details) s1
  | .error message =>
    let s1 := showToast message .error s
    showToast message .error s1

/-- `handleSaveSponsor()` up to `await api.createSponsor(...)`. It reads
`#newSponsorName` from the document, so it does nothing when the info modal
holds another content. -/
def handleSaveSponsor (s : AppState) : AppState :=
  match s.infoModal with
  | .addSponsor name website =>
    if name.isEmpty then showToast "Sponsor name is required" .error s
    else suspend .createSponsor (issue (.createSponsor name website) s)
  | _ => s

/-- The rest of `handleSaveSponsor` once `api.createSponsor` has resolved, up
to `await api.getSponsors()`; the `catch` is empty. -/
def handleSaveSponsorResume (r : Response Unit) (s : AppState) : AppState :=
  match apiResult r with
  | .ok _ =>
    let s1 := showToast "Sponsor added!" .success s
    let s2 := closeModal .infoModal s1
    suspend .getSponsors (issue .getSponsors s2)
  | .error message => showToast message .error s

/-- The rest of `handleSaveSponsor` once `api.getSponsors` has resolved. -/
def handleSaveSponsorListed (r : Response (List Sponsor)) (s : AppState) : AppState :=
  match apiResult r with
  | .ok sponsors => renderSponsors { s with sponsors := sponsors }
  | .error message => showToast message .error s

/-! ## Listeners set up at load time -/

/-- Click on `#showCreateEventModalBtn`. -/
def showCreateModalListener (s : AppState) : AppState :=
  openModal .createEventModal s

/-- Click on `#showVerifyModalBtn`. -/
def showVerifyModalListener (s : AppState) : AppState :=
  showInfoModal (.verifyEntry "") s

/-- Click on `#addTierBtn`: a new row named General Admission with empty
price and seats. -/
def addTierListener (s : AppState) : AppState :=
  { s with tiersContainer := s.tiersContainer ++ [⟨"General Admission", .nan, ""⟩] }

/-- Click on the `.remove-tier-btn` of row `i`. -/
def removeTierListener (i : Nat) (s : AppState) : AppState :=
  { s with tiersContainer := s.tiersContainer.eraseIdx i }

/-- `x++` on an entry of `seatsPerTier`. The entries count up from 0, so they
are integers from 0 to `2^53`, where `2^53 + 1` rounds back to `2^53`. -/
def incrementEntry (x : Int) : Int :=
  if x = 2 ^ 53 then x else x + 1

/-- `seatsPerTier[idx]++` as far as the entries `0 .. k-1` go: an index outside
the array leaves them as they are. -/
def incrementAt : List Int → Int → List Int
  | [], _ => []
  | x :: xs, idx => if idx = 0 then incrementEntry x :: xs else x :: incrementAt xs (idx - 1)

/-- `Math.floor(Math.random() * tierInputs.length)` when `Math.random()` gives
`r` and there are `k` tier inputs: the floor of the product rounded to a double
(`none` when the product is infinite, which names no entry of the array). -/
def randomIndex (r : ℚ) (k : Nat) : Option Int :=
  match roundToDouble (r * (k : ℚ)) with
  | .finite y => some ⌊y⌋
  | _ => none

/-- The body of the loop, `seatsPerTier[Math.floor(Math.random() * k)]++`, for
the value `r` of `Math.random()`. -/
def drawSeat (k : Nat) (r : ℚ) (seats : List Int) : List Int :=
  match randomIndex r k with
  | some idx => incrementAt seats idx
  | none => seats

/-- The test `i < totalSeats` of the loop, for a counter `i` counting up from 0. -/
def counterBelow (i : Nat) : JsNumber → Bool
  | .nan => false
  | .infinity negative => !negative
  | .finite n => decide ((i : Int) < n)

/-- `i++` on the loop counter: it counts up from 0 and stays at `2^53`, where
`2^53 + 1` rounds back to `2^53`. -/
def counterIncrement (i : Nat) : Nat :=
  if i = 2 ^ 53 then i else i + 1

/-- The loop `for (let i = 0; i < totalSeats; i++)` of the randomize handler,
run for at most `fuel` tests of its condition from the counter `i`, with `calls`
values of `Math.random()` already drawn (the next one is `random calls`); `none`
when the loop has not ended by then. -/
def randomizeLoop : Nat → JsNumber → Nat → (Nat → ℚ) → Nat → Nat → List Int →
    Option (List Int)
  | 0, _, _, _, _, _, _ => none
  | fuel + 1, totalSeats, k, random, i, calls, seats =>
    if counterBelow i totalSeats then
      randomizeLoop fuel totalSeats k random (counterIncrement i) (calls + 1)
        (drawSeat k (random calls) seats)
    else some seats

/-- How many times the body of the loop runs before `i < totalSeats` fails:
never for NaN, a negative infinity or a total of zero or less, `totalSeats`
times for a total up to `2^53`; `none` when the test never fails, for a larger
total or a positive infinity, where the counter stays at `2^53`. -/
def loopCount : JsNumber → Option Nat
  | .nan => some 0
  | .infinity negative => if negative then some 0 else none
  | .finite n => if n ≤ 2 ^ 53 then some n.toNat else none

/-- The array after a loop of `n` draws over `k` entries, the `i`-th value of
`Math.random()` being `random i`. -/
def randomAllocation (n k : Nat) (random : Nat → ℚ) : List Int :=
  (List.range n).foldl (fun seatsPerTier i => drawSeat k (random i) seatsPerTier)
    (List.replicate k 0)

/-- The guard `!totalSeats || tierInputs.length === 0` of the randomize handler. -/
def randomizeRefused (s : AppState) : Bool :=
  !(parseIntNumber s.createEventForm.total_seats_for_event).truthy
    || s.tiersContainer.length == 0

/-- The randomize handler from its guard to the end of its loop, the loop being
run for at most `fuel` tests of its condition: the `seatsPerTier` array, `none`
when the guard refuses, when `Array(tierInputs.length)` throws (a length of
`2^32` or more) or when the loop has not ended by then. -/
def randomizeRun (fuel : Nat) (random : Nat → ℚ) (s : AppState) : Option (List Int) :=
  let totalSeats := parseIntNumber s.createEventForm.total_seats_for_event
  let k := s.tiersContainer.length
  if randomizeRefused s then none
  else if 2 ^ 32 ≤ k then none
  else randomizeLoop fuel totalSeats k random 0 0 (List.replicate k 0)

/-- The `seatsPerTier` array the randomize handler computes, `none` when there
is none: the guard refuses, `Array(tierInputs.length)` throws, or the loop never
ends (`loopCount`). -/
def seatsPerTier (random : Nat → ℚ) (s : AppState) : Option (List Int) :=
  let totalSeats := parseIntNumber s.createEventForm.total_seats_for_event
  let k := s.tiersContainer.length
  if randomizeRefused s then none
  else if 2 ^ 32 ≤ k then none
  else (loopCount totalSeats).map (fun n => randomAllocation n k random)

/-- Click on `#randomizeSeatsBtn`: the error toast when the guard refuses,
otherwise the entries of `seatsPerTier` written into the seat inputs. When the
handler throws or its loop never ends nothing is written. -/
def randomizeSeatsListener (random : Nat → ℚ) (s : AppState) : AppState :=
  if randomizeRefused s then
    showToast "Please enter total seats and add at least one tier." .error s
  else
    match seatsPerTier random s with
    | some seats =>
      let write := fun (g : TierGroup) (n : Int) => { g with seats := toString n }
      { s with tiersContainer := List.zipWith write s.tiersContainer seats }
    | none => s

/-- Click on `#showAddSponsorFormBtn` inside `#sponsorsContainer`. -/
def showAddSponsorFormListener (s : AppState) : AppState :=
  showInfoModal (.addSponsor "" "") s

/-- Click on a `.close-modal-btn` whose closest `.modal` is `modal`. -/
def closeModalBtnListener (modal : Modal) (s : AppState) : AppState :=
  closeModal modal s

/-! ## Resolution of the calls in flight -/

/-- The answer of the remote service to one call in flight, by the call it
answers (`initEvents` and `initSponsors` answer the two list calls of
`initializeApp`). -/
inductive Resolution where
  | createEvent (r : Response Unit)
  | deleteEvent (r : Response Unit)
  | bookTicket (r : Response BookingResult)
  | verifyTicket (r : Response TicketDetails)
  | createSponsor (r : Response Unit)
  | getSponsors (r : Response (List Sponsor))
  | getBookings (r : Response (List Booking))
  | initEvents (r : Response (List Event))
  | initSponsors (r : Response (List Sponsor))

/-- `initializeApp` when `api.getEvents()` resolves, the other side of the
`Promise.all` being `sponsors`: the new page and what stays suspended. A
failed call shows the toast of `api.request`; the first failure runs the
`catch`; the `try` body runs once both sides are fulfilled. -/
def initEventsResume (r : Response (List Event)) (sponsors : Slot (List Sponsor))
    (s : AppState) : AppState × Option Pending :=
  match apiResult r with
  | .ok events =>
    match sponsors with
    | .waiting => (s, some (.initializeApp (.fulfilled events) .waiting))
    | .fulfilled sp => (initializeAppLoaded events sp s, none)
    | .rejected => (s, none)
  | .error message =>
    let s1 := showToast message .error s
    match sponsors with
    | .waiting => (initializeAppFailed s1, some (.initializeApp .rejected .waiting))
    | .fulfilled _ => (initializeAppFailed s1, none)
    | .rejected => (s1, none)

/-- `initializeApp` when `api.getSponsors()` resolves, the other side of the
`Promise.all` being `events`. -/
def initSponsorsResume (r : Response (List Sponsor)) (events : Slot (List Event))
    (s : AppState) : AppState × Option Pending :=
  match apiResult r with
  | .ok sponsors =>
    match events with
    | .waiting => (s, some (.initializeApp .waiting (.fulfilled sponsors)))
    | .fulfilled ev => (initializeAppLoaded ev sponsors s, none)
    | .rejected => (s, none)
  | .error message =>
    let s1 := showToast message .error s
    match events with
    | .waiting => (initializeAppFailed s1, some (.initializeApp .waiting .rejected))
    | .fulfilled _ => (initializeAppFailed s1, none)
    | .rejected => (s1, none)

/-- Puts back what stays suspended of entry `i`, or drops the entry. -/
def settle (i : Nat) (s : AppState) (next : AppState × Option Pending) : AppState :=
  match next.2 with
  | some p => { next.1 with pending := s.pending.set i p }
  | none => { next.1 with pending := s.pending.eraseIdx i }

/-- The call suspended as entry `i` of `pending` resolves with `res`: the
entry is taken out and its continuation runs. `none` when entry `i` is not
waiting for such an answer. -/
def resolve (i : Nat) (res : Resolution) (s : AppState) : Option AppState :=
  let rest := { s with pending := s.pending.eraseIdx i }
  match s.pending[i]?, res with
  | some .createEvent, .createEvent r => some (handleCreateEventResume r rest)
  | some .deleteEvent, .deleteEvent r => some (confirmDeleteResume r rest)
  | some (.bookTicket target), .bookTicket r => some (confirmBookResume target r rest)
  | some .verifyTicket, .verifyTicket r => some (handleVerifyTicketResume r rest)
  | some .createSponsor, .createSponsor r => some (handleSaveSponsorResume r rest)
  | some .getSponsors, .getSponsors r => some (handleSaveSponsorListed r rest)
  | some .getBookings, .getBookings r => some (handleViewBookingsResume r rest)
  | some (.initializeApp .waiting sp), .initEvents r => some (settle i s (initEventsResume r sp s))
  | some (.initializeApp ev .waiting), .initSponsors r =>
    some (settle i s (initSponsorsResume r ev s))
  | _, _ => none

/-- Number of remote calls a suspended continuation is waiting for. -/
def Pending.inFlight : Pending → Nat
  | .initializeApp ev sp =>
    (if ev = .waiting then 1 else 0) + (if sp = .waiting then 1 else 0)
  | _ => 1

/-! ## Activation of the controls of the info modal and of the form

A user reaches a control only while its modal is on display and the control
is not disabled; `none` means there is no such control to activate. -/

/-- Submission of `#createEventForm` through its submit button. -/
def submitCreateEventForm (s : AppState) : Option AppState :=
  if s.createEventModalHidden || s.submitBtnDisabled then none
  else some (handleCreateEvent s)

/-- Click on `#confirmDeleteBtn`. -/
def clickConfirmDeleteBtn (s : AppState) : Option AppState :=
  match s.infoModal with
  | .confirmDeletion eventId _ =>
    if s.infoModalHidden then none else some (confirmDeleteListener eventId s)
  | _ => none

/-- Click on `#confirmBookBtn`. -/
def clickConfirmBookBtn (s : AppState) : Option AppState :=
  match s.infoModal with
  | .phoneEntry eventId tierId qty _ confirmDisabled _ =>
    if s.infoModalHidden || confirmDisabled then none
    else some (confirmBookListener eventId tierId qty s)
  | _ => none

/-- Click on `#confirmVerifyBtn`. -/
def clickConfirmVerifyBtn (s : AppState) : Option AppState :=
  match s.infoModal with
  | .verifyEntry _ => if s.infoModalHidden then none else some (handleVerifyTicket s)
  | _ => none

/-- Click on `#saveSponsorBtn`. -/
def clickSaveSponsorBtn (s : AppState) : Option AppState :=
  match s.infoModal with
  | .addSponsor _ _ => if s.infoModalHidden then none else some (handleSaveSponsor s)
  | _ => none

/-- Click on the `.close-modal-btn` of the info modal (Cancel, Close or Done). -/
def clickInfoModalCloseBtn (s : AppState) : Option AppState :=
  match s.infoModal with
  | .empty => none
  | _ => if s.infoModalHidden then none else some (closeModalBtnListener .infoModal s)

/-- Typing `value` into the one text input of the info modal that the
current content offers first (`#phoneInput`, `#verifyHashInput` or
`#newSponsorName`). -/
def typeInInfoModal (value : String) (s : AppState) : AppState :=
  match s.infoModal with
  | .phoneEntry e t q _ d txt => { s with infoModal := .phoneEntry e t q value d txt }
  | .verifyEntry _ => { s with infoModal := .verifyEntry value }
  | .addSponsor _ website => { s with infoModal := .addSponsor value website }
  | _ => s

/-- The page when the script starts, before the first `initializeApp()`:
empty cache, nothing in flight, and the page markup taken to start with the
backdrop and every modal hidden, an empty info modal and no tier row. -/
def initialState (formDefaults : CreateEventForm) (sponsorsInForm : Bool) : AppState :=
  { events := []
    sponsors := []
    modalBackdropHidden := true
    createEventModalHidden := true
    infoModalHidden := true
    bookingsModalHidden := true
    infoModal := .empty
    infoModalNodes := 0
    bookingsModalTitle := ""
    bookingsModalContent := .empty
    createEventForm := formDefaults
    formDefaults := formDefaults
    sponsorsInForm := sponsorsInForm
    submitBtnDisabled := false
    submitBtnText := "Create Event"
    tiersContainer := []
    sponsorsContainer := []
    eventsGrid := .markup
    toasts := []
    requests := []
    pending := [] }

/-- A form with every field empty. -/
def emptyForm : CreateEventForm :=
  { title := "", description := "", location := "", start_time := "", end_time := ""
    total_seats_for_event := "" }

/-! ## Statements compared with the handlers -/

/-- The naturals that are doubles: below `2^53`, or a 53-bit significand times
a power of two. -/
def IsDoubleNat (y : Nat) : Prop :=
  y < 2 ^ 53 ∨ ∃ c e, 2 ^ 52 ≤ c ∧ c < 2 ^ 53 ∧ 0 < e ∧ y = c * 2 ^ e

/-- Adding zero leaves the number as it is. -/
def Settled (x : JsNumber) : Prop :=
  x.add (.finite 0) = x

/-- A complete row: a non-empty name, a price that is a number and a seat
count in which `parseInt` reads a number. -/
def rowComplete (g : TierGroup) : Bool :=
  !(g.name == "") && !(g.price == .nan) && (parseInt g.seats).isSome

/-- The sum, added up from 0 in JavaScript numbers in the order of the rows,
of the seat counts `parseInt` reads in the complete rows. -/
def completeSeatSum (rows : List TierGroup) : JsNumber :=
  ((rows.filter rowComplete).map (fun g => parseIntNumber g.seats)).foldl JsNumber.add
    (.finite 0)

/-- The sum, added up from 0 in JavaScript numbers in the order of the rows,
of the seat counts `parseInt` reads in every row. -/
def enteredSeatSum (rows : List TierGroup) : JsNumber :=
  (rows.map (fun g => parseIntNumber g.seats)).foldl JsNumber.add (.finite 0)

/-- The sum as integers of the seat counts `parseInt` reads in every row. -/
def enteredSeatTotal (rows : List TierGroup) : Int :=
  (rows.map (fun g => (parseInt g.seats).getD 0)).sum

/-- `a === b` on numbers: the same number, and not NaN. -/
def SameNumber (a b : JsNumber) : Prop :=
  a ≠ .nan ∧ a = b

/-- The create-event form open with an unnamed row of 5 seats, a row Balcony of
7 seats without a price and a row VIP of 9007199254740992 seats at price 10, and
a declared total of 9007199254740993. -/
def largeTotalState : AppState :=
  { openModal .createEventModal (initialState emptyForm true) with
    createEventForm :=
      { emptyForm with title := "Gala", total_seats_for_event := "9007199254740993" }
    tiersContainer :=
      [⟨"", .finite 10, "5"⟩, ⟨"Balcony", .nan, "7"⟩, ⟨"VIP", .finite 10, "9007199254740992"⟩] }

/-- The rational is a finite double: a significand of at most 53 bits times a
power of two within the range of the format. -/
def IsDouble (q : ℚ) : Prop :=
  ∃ m e : Int, |m| < 2 ^ 53 ∧ -1074 ≤ e ∧ e ≤ 971 ∧ q = (m : ℚ) * 2 ^ e

/-- A random source whose first four values are 0 and whose later values are 1/2. -/
def fourThenHalf (i : Nat) : ℚ :=
  if i < 4 then 0 else 1 / 2

/-- The create-event form with the rows VIP and General and a declared total of 10. -/
def vipGeneralState : AppState :=
  { openModal .createEventModal (initialState emptyForm true) with
    createEventForm := { emptyForm with total_seats_for_event := "10" }
    tiersContainer := [⟨"VIP", .nan, ""⟩, ⟨"General", .nan, ""⟩] }

/-- The string consists of exactly ten decimal digits and nothing else. -/
def TenDecimalDigits (phone : String) : Prop :=
  phone.data.length = 10 ∧ ∀ c ∈ phone.data, c.isDigit = true

/-- The page after loading, with the phone dialog opened for 2 tickets of
tier 7 of event 1 and `phone` typed into it. -/
def phoneDialogState (phone : String) : AppState :=
  typeInInfoModal phone (handleBookTicket 1 "7" "2" (initialState emptyForm true))

/-- The page after loading, with the deletion of event 1, titled Gala, awaiting
confirmation. -/
def deleteDialogState : AppState :=
  handleDeleteEvent 1 "Gala" (initialState emptyForm true)

/-- The page after loading, with the verify dialog open and `hash` typed into it. -/
def verifyDialogState (hash : String) : AppState :=
  typeInInfoModal hash (showVerifyModalListener (initialState emptyForm true))

/-- The page after loading, with the add-sponsor dialog open and `name` typed into it. -/
def sponsorDialogState (name : String) : AppState :=
  typeInInfoModal name (showAddSponsorFormListener (initialState emptyForm true))

/-- The create-event form open with one row VIP of 5 seats at price 10 and a
declared total of 5. -/
def oneTierState : AppState :=
  { openModal .createEventModal (initialState emptyForm true) with
    createEventForm := { emptyForm with title := "Gala", total_seats_for_event := "5" }
    tiersContainer := [⟨"VIP", .finite 10, "5"⟩] }

/-- The call failed with the failure message `m`: the service answered without
`response.ok` and with `m` as the `detail` of its body, or the call threw an
error whose message is `m`. -/
def FailsWith {α : Type} (r : Response α) (m : String) : Prop :=
  r = .notOk (some m) ∨ r = .thrown m

/-- Whether `api.request` returns the body of this answer (`true`) or rethrows
an error (`false`). -/
def Response.fulfils {α : Type} : Response α → Bool
  | .ok _ => true
  | .notOk _ => false
  | .thrown _ => false

/-- One run of `initializeApp()` from the page `s`: the two list calls are
issued, then answered with `re` (list events) and `rs` (list sponsors), the
list-events answer arriving first when `eventsFirst` holds and the
list-sponsors answer otherwise. -/
def initializeAppRun (eventsFirst : Bool) (re : Response (List Event))
    (rs : Response (List Sponsor)) (s : AppState) : Option AppState :=
  let i := s.pending.length
  if eventsFirst then
    (resolve i (.initEvents re) (initializeApp s)).bind (resolve i (.initSponsors rs))
  else
    (resolve i (.initSponsors rs) (initializeApp s)).bind (resolve i (.initEvents re))

/-- The first answer alone of a run of `initializeApp()` from the page `s`. -/
def initializeAppFirstAnswer (eventsFirst : Bool) (re : Response (List Event))
    (rs : Response (List Sponsor)) (s : AppState) : Option AppState :=
  if eventsFirst then resolve s.pending.length (.initEvents re) (initializeApp s)
  else resolve s.pending.length (.initSponsors rs) (initializeApp s)

/-- Whether a modal is on display (its `hidden` class is absent). -/
def modalVisible (modal : Modal) (s : AppState) : Bool :=
  match modal with
  | .createEventModal => !s.createEventModalHidden
  | .infoModal => !s.infoModalHidden
  | .bookingsModal => !s.bookingsModalHidden

/-- Whether at least one modal is on display. -/
def anyModalVisible (s : AppState) : Bool :=
  modalVisible .createEventModal s || modalVisible .infoModal s
    || modalVisible .bookingsModal s

/-- A step on the modal surfaces: a call of `openModal`, of `showInfoModal` or
of `closeModal`. -/
inductive ModalAction where
  | openModal (modal : Modal)
  | showInfoModal (content : InfoModalContent)
  | closeModal (modal : Modal)

/-- The effect of a step on the page. -/
def ModalAction.run : ModalAction → AppState → AppState
  | .openModal modal, s => EventManagement.openModal modal s
  | .showInfoModal content, s => EventManagement.showInfoModal content s
  | .closeModal modal, s => EventManagement.closeModal modal s

/-- Whether a surface other than `modal` is on display. -/
def otherModalVisible (modal : Modal) (s : AppState) : Bool :=
  match modal with
  | .createEventModal => modalVisible .infoModal s || modalVisible .bookingsModal s
  | .infoModal => modalVisible .createEventModal s || modalVisible .bookingsModal s
  | .bookingsModal => modalVisible .createEventModal s || modalVisible .infoModal s

/-- Whether a step closes nothing beside another surface: every `openModal` and
`showInfoModal` step, whatever is on display already, and a `closeModal(modal)`
step when no surface other than `modal` is on display (`modal` itself may be
on display or hidden). -/
def ModalAction.closesAlone : ModalAction → AppState → Bool
  | .closeModal modal, s => !otherModalVisible modal s
  | _, _ => true

/-- Runs a sequence of steps none of which closes a surface beside another
one; `none` when some `closeModal` step of the sequence comes while another
surface is on display. -/
def runClosingAlone : List ModalAction → AppState → Option AppState
  | [], s => some s
  | a :: rest, s => if a.closesAlone s then runClosingAlone rest (a.run s) else none

/-- Close the hidden info modal, open and close the bookings modal, open the
create-event form and open the add-sponsor dialog from inside it. -/
def sponsorDialogOverFormSteps : List ModalAction :=
  [.closeModal .infoModal, .openModal .bookingsModal, .closeModal .bookingsModal,
    .openModal .createEventModal, .showInfoModal (.addSponsor "" "")]

/-- The page after the steps of `sponsorDialogOverFormSteps` from the initial page. -/
def sponsorDialogOverFormState : AppState :=
  showInfoModal (.addSponsor "" "") (openModal .createEventModal
    (closeModal .bookingsModal (openModal .bookingsModal
      (closeModal .infoModal (initialState emptyForm true)))))

/-! ## Create event: the seat-sum check -/

theorem excessBits_spec (fuel m : Nat) (h : m < 2 ^ (53 + fuel)) :
    (excessBits fuel m = 0 ∧ m < 2 ^ 53)
    ∨ (0 < excessBits fuel m ∧ 2 ^ (52 + excessBits fuel m) ≤ m
        ∧ m < 2 ^ (53 + excessBits fuel m)) := by
  induction fuel generalizing m with
  | zero => exact Or.inl ⟨rfl, h⟩
  | succ fuel ih =>
    by_cases hm : m < 2 ^ 53
    · exact Or.inl ⟨by simp only [excessBits, if_pos hm], hm⟩
    · have he : excessBits (fuel + 1) m = excessBits fuel (m / 2) + 1 := by
        simp only [excessBits, if_neg hm]
      have h2 : m / 2 < 2 ^ (53 + fuel) := by
        have : 2 ^ (53 + (fuel + 1)) = 2 ^ (53 + fuel) * 2 := by ring
        omega
      rw [he]
      rcases ih (m / 2) h2 with ⟨h0, hlt⟩ | ⟨hpos, hle, hlt⟩
      · rw [h0]
        refine Or.inr ⟨by omega, by omega, by omega⟩
      · have e1 : 2 ^ (52 + (excessBits fuel (m / 2) + 1))
            = 2 ^ (52 + excessBits fuel (m / 2)) * 2 := by ring
        have e2 : 2 ^ (53 + (excessBits fuel (m / 2) + 1))
            = 2 ^ (53 + excessBits fuel (m / 2)) * 2 := by ring
        refine Or.inr ⟨by omega, by omega, by omega⟩

theorem excessBits_self (m : Nat) :
    (excessBits m m = 0 ∧ m < 2 ^ 53)
    ∨ (0 < excessBits m m ∧ 2 ^ (52 + excessBits m m) ≤ m ∧ m < 2 ^ (53 + excessBits m m)) := by
  apply excessBits_spec
  calc m < 2 ^ m := Nat.lt_two_pow m
    _ ≤ 2 ^ (53 + m) := Nat.pow_le_pow_right (by norm_num) (by omega)

theorem excessBits_eq_of_bounds (m e : Nat) (he : 0 < e) (h1 : 2 ^ (52 + e) ≤ m)
    (h2 : m < 2 ^ (53 + e)) : excessBits m m = e := by
  rcases excessBits_self m with ⟨_, hlt⟩ | ⟨_, hle, hlt⟩
  · have : 2 ^ 53 ≤ 2 ^ (52 + e) := Nat.pow_le_pow_right (by norm_num) (by omega)
    omega
  · have ha : 52 + excessBits m m < 53 + e :=
      (Nat.pow_lt_pow_iff_right (by norm_num : 1 < 2)).mp (lt_of_le_of_lt hle h2)
    have hb : 52 + e < 53 + excessBits m m :=
      (Nat.pow_lt_pow_iff_right (by norm_num : 1 < 2)).mp (lt_of_le_of_lt h1 hlt)
    omega

theorem roundNatToDouble_of_lt (m : Nat) (h : m < 2 ^ 53) : roundNatToDouble m = m := by
  have he : excessBits m m = 0 := by
    rcases excessBits_self m with ⟨h0, _⟩ | ⟨hpos, hle, _⟩
    · exact h0
    · have : 2 ^ 53 ≤ 2 ^ (52 + excessBits m m) :=
        Nat.pow_le_pow_right (by norm_num) (by omega)
      omega
  simp only [roundNatToDouble, he, if_true]

theorem roundNatToDouble_mul_pow (c e : Nat) (hc1 : 2 ^ 52 ≤ c) (hc2 : c < 2 ^ 53)
    (he : 0 < e) : roundNatToDouble (c * 2 ^ e) = c * 2 ^ e := by
  have hpos : 0 < 2 ^ e := Nat.pow_pos (by norm_num)
  have h1 : 2 ^ (52 + e) ≤ c * 2 ^ e := by
    rw [pow_add]
    exact Nat.mul_le_mul_right _ hc1
  have h2 : c * 2 ^ e < 2 ^ (53 + e) := by
    rw [pow_add]
    exact Nat.mul_lt_mul_of_pos_right hc2 hpos
  have hb := excessBits_eq_of_bounds (c * 2 ^ e) e he h1 h2
  have hr : c * 2 ^ e % 2 ^ e = 0 := Nat.mul_mod_left _ _
  have hhalf : 0 < 2 ^ (e - 1) := Nat.pow_pos (by norm_num)
  have hq : c * 2 ^ e / 2 ^ e = c := Nat.mul_div_cancel _ hpos
  simp only [roundNatToDouble, hb, hr, hq, if_neg (Nat.pos_iff_ne_zero.mp he), if_pos hhalf]

theorem isDoubleNat_roundNatToDouble (m : Nat) : IsDoubleNat (roundNatToDouble m) := by
  rcases excessBits_self m with ⟨h0, hlt⟩ | ⟨hpos, hle, hlt⟩
  · rw [roundNatToDouble_of_lt m hlt]
    exact Or.inl hlt
  · have h2e : 0 < 2 ^ excessBits m m := Nat.pow_pos (by norm_num)
    have hq1 : 2 ^ 52 ≤ m / 2 ^ excessBits m m := by
      rw [Nat.le_div_iff_mul_le h2e, ← pow_add]
      exact hle
    have hq2 : m / 2 ^ excessBits m m < 2 ^ 53 := by
      rw [Nat.div_lt_iff_lt_mul h2e, ← pow_add]
      exact hlt
    have hup : IsDoubleNat ((m / 2 ^ excessBits m m + 1) * 2 ^ excessBits m m) := by
      by_cases hc : m / 2 ^ excessBits m m + 1 < 2 ^ 53
      · exact Or.inr ⟨_, _, by omega, hc, hpos, rfl⟩
      · refine Or.inr ⟨2 ^ 52, excessBits m m + 1, le_refl _, by norm_num, by omega, ?_⟩
        have : m / 2 ^ excessBits m m + 1 = 2 ^ 52 * 2 := by omega
        rw [this, pow_succ]
        ring
    have hdown : IsDoubleNat (m / 2 ^ excessBits m m * 2 ^ excessBits m m) :=
      Or.inr ⟨_, _, hq1, hq2, hpos, rfl⟩
    simp only [roundNatToDouble, if_neg (Nat.pos_iff_ne_zero.mp hpos)]
    split
    · exact hdown
    · split
      · exact hup
      · split
        · exact hdown
        · exact hup

theorem roundNatToDouble_of_isDoubleNat (y : Nat) (h : IsDoubleNat y) :
    roundNatToDouble y = y := by
  rcases h with h | ⟨c, e, hc1, hc2, he, rfl⟩
  · exact roundNatToDouble_of_lt y h
  · exact roundNatToDouble_mul_pow c e hc1 hc2 he

theorem roundNatToDouble_idem (m : Nat) :
    roundNatToDouble (roundNatToDouble m) = roundNatToDouble m :=
  roundNatToDouble_of_isDoubleNat _ (isDoubleNat_roundNatToDouble m)

theorem ofInt_of_finite (n a : Int) (h : JsNumber.ofInt n = .finite a) :
    JsNumber.ofInt a = .finite a := by
  unfold JsNumber.ofInt at h
  simp only at h
  by_cases hov : 0 < roundNatToDouble n.natAbs >>> 1024
  · rw [if_pos hov] at h
    cases h
  · rw [if_neg hov] at h
    have ha : a = if n < 0 then -(roundNatToDouble n.natAbs : Int)
        else (roundNatToDouble n.natAbs : Int) := (JsNumber.finite.inj h).symm
    have habs : a.natAbs = roundNatToDouble n.natAbs := by
      rw [ha]
      split <;> simp
    have hround : roundNatToDouble a.natAbs = a.natAbs := by
      rw [habs]
      exact roundNatToDouble_idem _
    unfold JsNumber.ofInt
    simp only [hround]
    rw [← habs] at hov
    rw [if_neg hov]
    congr 1
    split <;> omega

theorem settled_add (x y : JsNumber) : Settled (x.add y) := by
  unfold Settled
  cases x with
  | nan => cases y <;> rfl
  | infinity a =>
    cases y with
    | nan => rfl
    | infinity b =>
      by_cases hab : a = b
      · simp [JsNumber.add, hab]
      · simp [JsNumber.add, hab]
    | finite b => rfl
  | finite a =>
    cases y with
    | nan => rfl
    | infinity b => rfl
    | finite b =>
      show (JsNumber.ofInt (a + b)).add (.finite 0) = JsNumber.ofInt (a + b)
      cases hz : JsNumber.ofInt (a + b) with
      | nan => rfl
      | infinity c => rfl
      | finite c =>
        show JsNumber.ofInt (c + 0) = .finite c
        rw [add_zero]
        exact ofInt_of_finite _ _ hz

theorem settled_zero : Settled (.finite 0) := by
  unfold Settled
  decide

theorem rowComplete_of_tierComplete (g : TierGroup) (h : tierComplete (readTier g) = true) :
    rowComplete g = true := by
  simp only [tierComplete, readTier, Bool.and_eq_true, Bool.not_eq_true'] at h
  obtain ⟨⟨hname, hprice⟩, hseats⟩ := h
  have h1 : g.name ≠ "" := by
    intro he
    rw [he] at hname
    exact absurd hname (by decide)
  have h2 : g.price ≠ .nan := by
    intro he
    rw [he] at hprice
    exact absurd hprice (by decide)
  have h3 : (parseInt g.seats).isSome = true := by
    cases hp : parseInt g.seats with
    | none =>
      simp only [parseIntNumber, hp, toNumber] at hseats
      exact absurd hseats (by decide)
    | some n => rfl
  simp [rowComplete, h1, h2, h3]

theorem ofInt_ne_nan (n : Int) : JsNumber.ofInt n ≠ .nan := by
  unfold JsNumber.ofInt
  simp only
  split <;> exact fun h => by cases h

theorem seats_zero_of_dropped (g : TierGroup) (hc : rowComplete g = true)
    (hk : tierComplete (readTier g) = false) (hprice : g.price ≠ .finite 0) :
    parseIntNumber g.seats = .finite 0 := by
  simp only [rowComplete, Bool.and_eq_true, Bool.not_eq_true', beq_eq_false_iff_ne, ne_eq]
    at hc
  obtain ⟨⟨hname, hnan⟩, hsome⟩ := hc
  have h1 : g.name.isEmpty = false := by
    cases hb : g.name.isEmpty with
    | false => rfl
    | true => exact absurd ((String.isEmpty_iff g.name).mp hb) hname
  have h2 : g.price.truthy = true := by
    cases hp : g.price with
    | nan => exact absurd hp hnan
    | finite q =>
      have hq : q ≠ 0 := fun h0 => hprice (by rw [hp, h0])
      simp [JsFloat.truthy, hq]
    | infinity b => rfl
  have h3 : (parseIntNumber g.seats).truthy = false := by
    simpa [tierComplete, readTier, h1, h2] using hk
  obtain ⟨n, hn⟩ := Option.isSome_iff_exists.mp hsome
  have hnum : parseIntNumber g.seats = JsNumber.ofInt n := by
    simp only [parseIntNumber, hn, toNumber]
  rw [hnum] at h3 ⊢
  cases hz : JsNumber.ofInt n with
  | nan => exact absurd hz (ofInt_ne_nan n)
  | infinity b =>
    rw [hz] at h3
    cases h3
  | finite a =>
    rw [hz] at h3
    have : a = 0 := by simpa [JsNumber.truthy] using h3
    rw [this]

theorem foldl_kept_eq_complete (rows : List TierGroup) (acc : JsNumber)
    (hprice : ∀ g ∈ rows, g.price ≠ .finite 0) (hacc : Settled acc) :
    ((rows.map readTier).filter tierComplete).foldl
        (fun sum tier => sum.add tier.total_seats) acc
      = ((rows.filter rowComplete).map (fun g => parseIntNumber g.seats)).foldl
          JsNumber.add acc := by
  induction rows generalizing acc with
  | nil => rfl
  | cons g gs ih =>
    have hg : g.price ≠ .finite 0 := hprice g (List.mem_cons_self g gs)
    have hgs : ∀ x ∈ gs, x.price ≠ .finite 0 := fun x hx => hprice x (List.mem_cons_of_mem g hx)
    cases hk : tierComplete (readTier g) with
    | true =>
      have hc := rowComplete_of_tierComplete g hk
      simp only [List.map_cons, List.filter_cons, hk, hc, if_true, List.foldl_cons]
      exact ih _ hgs (settled_add _ _)
    | false =>
      cases hc : rowComplete g with
      | true =>
        have hz := seats_zero_of_dropped g hc hk hg
        simp only [List.map_cons, List.filter_cons, hk, hc, if_true, List.foldl_cons,
          Bool.false_eq_true, if_false, hz]
        rw [show acc.add (.finite 0) = acc from hacc]
        exact ih acc hgs hacc
      | false =>
        simp only [List.map_cons, List.filter_cons, hk, hc, Bool.false_eq_true, if_false]
        exact ih acc hgs hacc

theorem totalTierSeats_readTiers (rows : List TierGroup)
    (hprice : ∀ g ∈ rows, g.price ≠ .finite 0) :
    totalTierSeats (readTiers rows) = completeSeatSum rows :=
  foldl_kept_eq_complete rows (.finite 0) hprice settled_zero

theorem strictNe_eq_false_iff (a b : JsNumber) : a.strictNe b = false ↔ SameNumber a b := by
  unfold SameNumber
  cases a <;> cases b <;> simp [JsNumber.strictNe]

/-- C1 (as amended): for every list of tier rows none of which has the price 0, and every
declared total, `handleCreateEvent` issues the create-event call (exactly one
request, carrying the data read from the form, and no toast) if and only if the
number `parseInt` reads from the declared total is the same JavaScript number as
the sum, added up from 0 in the order of the rows, of the numbers `parseInt` reads
from the seat counts of the complete rows, the rows with a non-empty name, a price
that is a number and a seat count that is a number; otherwise it issues no call,
leaves nothing suspended and shows exactly one error toast. -/
theorem handleCreateEvent_issues_iff_complete_sum (s : AppState)
    (hprice : ∀ g ∈ s.tiersContainer, g.price ≠ .finite 0) :
    ((handleCreateEvent s).requests = s.requests ++ [.createEvent (readEventData s)]
        ↔ SameNumber (completeSeatSum s.tiersContainer)
            (parseIntNumber s.createEventForm.total_seats_for_event))
    ∧ (SameNumber (completeSeatSum s.tiersContainer)
          (parseIntNumber s.createEventForm.total_seats_for_event) →
        (handleCreateEvent s).pending = s.pending ++ [.createEvent]
        ∧ (handleCreateEvent s).toasts = s.toasts
        ∧ (handleCreateEvent s).submitBtnDisabled = true)
    ∧ (¬ SameNumber (completeSeatSum s.tiersContainer)
          (parseIntNumber s.createEventForm.total_seats_for_event) →
        (handleCreateEvent s).requests = s.requests
        ∧ (handleCreateEvent s).pending = s.pending
        ∧ (handleCreateEvent s).toasts = s.toasts ++
            [⟨"The sum of seats in all tiers must equal the total seats for the event.", .error⟩]
        ∧ (handleCreateEvent s).submitBtnDisabled = false) := by
  by_cases h : SameNumber (completeSeatSum s.tiersContainer)
      (parseIntNumber s.createEventForm.total_seats_for_event)
  · have hne : (totalTierSeats (readTiers s.tiersContainer)).strictNe
        (parseIntNumber s.createEventForm.total_seats_for_event) = false := by
      rw [totalTierSeats_readTiers _ hprice, strictNe_eq_false_iff]
      exact h
    refine ⟨⟨fun _ => h, fun _ => ?_⟩, fun _ => ?_, fun hn => absurd h hn⟩
    · simp only [handleCreateEvent, hne]
      rfl
    · simp only [handleCreateEvent, hne]
      exact ⟨rfl, rfl, rfl⟩
  · have hne : (totalTierSeats (readTiers s.tiersContainer)).strictNe
        (parseIntNumber s.createEventForm.total_seats_for_event) = true := by
      rw [totalTierSeats_readTiers _ hprice]
      cases hb : (completeSeatSum s.tiersContainer).strictNe
          (parseIntNumber s.createEventForm.total_seats_for_event) with
      | true => rfl
      | false => exact absurd ((strictNe_eq_false_iff _ _).mp hb) h
    refine ⟨⟨fun hreq => ?_, fun hp => absurd hp h⟩, fun hp => absurd hp h, fun _ => ?_⟩
    · simp [handleCreateEvent, hne, showToast] at hreq
    · simp only [handleCreateEvent, hne]
      exact ⟨rfl, rfl, rfl, rfl⟩

/-- C1 (witness): with the one row VIP of 5 seats at price 10 and a declared total of 5,
no row has the price 0, the complete rows sum to the declared total, and
`handleCreateEvent` issues the create-event call. -/
theorem handleCreateEvent_one_tier_issued :
    (∀ g ∈ oneTierState.tiersContainer, g.price ≠ .finite 0)
    ∧ SameNumber (completeSeatSum oneTierState.tiersContainer)
        (parseIntNumber oneTierState.createEventForm.total_seats_for_event)
    ∧ (handleCreateEvent oneTierState).requests
        = oneTierState.requests ++ [.createEvent (readEventData oneTierState)] :=
  ⟨by decide, ⟨by decide, by decide⟩,
    (handleCreateEvent_issues_iff_complete_sum oneTierState (by decide)).1.mpr
      ⟨by decide, by decide⟩⟩

/-- C1 (counterexample): with an unnamed row of 5 seats, an unpriced row of 7 seats, a row VIP
of 9007199254740992 seats and a declared total of 9007199254740993, the seat counts
of all the rows do not sum to the declared total, neither as integers nor as
JavaScript numbers, and yet `handleCreateEvent` issues the create-event call and
shows no toast: the unnamed and the unpriced row are not counted, and the declared
total is read as the double 9007199254740992. -/
theorem handleCreateEvent_large_total_issued :
    enteredSeatTotal largeTotalState.tiersContainer = 9007199254741004
    ∧ parseInt largeTotalState.createEventForm.total_seats_for_event = some 9007199254740993
    ∧ enteredSeatSum largeTotalState.tiersContainer = .finite 9007199254741004
    ∧ parseIntNumber largeTotalState.createEventForm.total_seats_for_event
        = .finite 9007199254740992
    ∧ (handleCreateEvent largeTotalState).requests
        = [.createEvent (readEventData largeTotalState)]
    ∧ (handleCreateEvent largeTotalState).toasts = [] := by
  decide

/-! ## Randomized seat allocation -/

theorem abs_roundHalfEven_sub_le (q : ℚ) : |(roundHalfEven q : ℚ) - q| ≤ 1 / 2 := by
  have h1 := Int.floor_le q
  have h2 := Int.lt_floor_add_one q
  unfold roundHalfEven
  rw [abs_le]
  split
  · constructor <;> linarith
  · split
    · push_cast
      constructor <;> linarith
    · have heq : q - ⌊q⌋ = 1 / 2 := le_antisymm (by linarith) (by linarith)
      split
      · constructor <;> linarith
      · push_cast
        constructor <;> linarith

theorem roundHalfEven_nonneg (q : ℚ) (hq : 0 ≤ q) : 0 ≤ roundHalfEven q := by
  have h0 : 0 ≤ ⌊q⌋ := Int.floor_nonneg.mpr hq
  unfold roundHalfEven
  split
  · exact h0
  · split
    · omega
    · split <;> omega

theorem double_le_pred_one (r : ℚ) (hd : IsDouble r) (h1 : r < 1) :
    r ≤ 1 - 1 / 2 ^ 53 := by
  obtain ⟨m, e, hm, _, _, rfl⟩ := hd
  rcases le_or_lt (-53) e with he | he
  · -- r * 2^53 is an integer below 2^53
    obtain ⟨n, hn⟩ := Int.eq_ofNat_of_zero_le (show 0 ≤ e + 53 by omega)
    have hpow : (2 : ℚ) ^ e * 2 ^ 53 = 2 ^ n := by
      have h1 : (2 : ℚ) ^ e * 2 ^ (53 : ℤ) = 2 ^ (e + 53) := by
        rw [zpow_add₀ (by norm_num : (2 : ℚ) ≠ 0)]
      rw [hn, zpow_natCast] at h1
      rw [← h1]
      norm_cast
    have hlt : (m : ℚ) * 2 ^ n < 2 ^ 53 := by
      calc (m : ℚ) * 2 ^ n = (m * 2 ^ e) * 2 ^ 53 := by rw [mul_assoc, hpow]
        _ < 1 * 2 ^ 53 := mul_lt_mul_of_pos_right h1 (by positivity)
        _ = 2 ^ 53 := one_mul _
    have hlti : m * 2 ^ n < 2 ^ 53 := by exact_mod_cast hlt
    have hle : m * 2 ^ n ≤ 2 ^ 53 - 1 := by omega
    have hle' : (m : ℚ) * 2 ^ n ≤ 2 ^ 53 - 1 := by exact_mod_cast hle
    rw [← hpow, ← mul_assoc] at hle'
    have h53 : (0 : ℚ) < 2 ^ 53 := by positivity
    rw [← mul_le_mul_right h53, sub_mul, one_mul, one_div, inv_mul_cancel₀ h53.ne']
    exact hle'
  · have hpow : (2 : ℚ) ^ e ≤ 2 ^ (-54 : ℤ) :=
      zpow_le_zpow_right₀ (by norm_num) (by omega)
    have hm' : (m : ℚ) < 2 ^ 53 := by
      have : m < 2 ^ 53 := lt_of_le_of_lt (le_abs_self m) hm
      exact_mod_cast this
    have hpos : (0 : ℚ) < 2 ^ e := by positivity
    have h54 : (2 : ℚ) ^ (-54 : ℤ) = 1 / 2 ^ 54 := by
      rw [zpow_neg, one_div]
      norm_cast
    have : (m : ℚ) * 2 ^ e ≤ 2 ^ 53 * (1 / 2 ^ 54) := by
      calc (m : ℚ) * 2 ^ e ≤ 2 ^ 53 * 2 ^ e := mul_le_mul_of_nonneg_right hm'.le hpos.le
        _ ≤ 2 ^ 53 * (1 / 2 ^ 54) := by
          rw [← h54]
          exact mul_le_mul_of_nonneg_left hpow (by positivity)
    have hnum : (2 : ℚ) ^ 53 * (1 / 2 ^ 54) ≤ 1 - 1 / 2 ^ 53 := by norm_num
    linarith

theorem roundToDouble_product_lt (r : ℚ) (k : Nat) (hd : IsDouble r) (h0 : 0 ≤ r) (h1 : r < 1)
    (hk : 1 ≤ k) (hk32 : k < 2 ^ 32) :
    ∃ y : ℚ, roundToDouble (r * (k : ℚ)) = .finite y ∧ 0 ≤ y ∧ y < (k : ℚ) := by
  have hkq : (1 : ℚ) ≤ (k : ℚ) := by exact_mod_cast hk
  have hkpos : (0 : ℚ) < (k : ℚ) := by linarith
  have hk32q : (k : ℚ) < 2 ^ 32 := by exact_mod_cast hk32
  by_cases hx : r * (k : ℚ) = 0
  · refine ⟨0, ?_, le_refl 0, hkpos⟩
    simp only [roundToDouble, hx, if_true]
  · have hxpos : 0 < r * (k : ℚ) := lt_of_le_of_ne (mul_nonneg h0 hkpos.le) (Ne.symm hx)
    have hr := double_le_pred_one r hd h1
    have hxk : r * (k : ℚ) ≤ (1 - 1 / 2 ^ 53) * k := mul_le_mul_of_nonneg_right hr hkpos.le
    have hepos : (0 : ℚ) < 2 ^ ulpExponent (r * (k : ℚ)) := by positivity
    have hN := abs_roundHalfEven_sub_le (r * (k : ℚ) / 2 ^ ulpExponent (r * (k : ℚ)))
    have hN0 := roundHalfEven_nonneg (r * (k : ℚ) / 2 ^ ulpExponent (r * (k : ℚ)))
      (div_nonneg hxpos.le hepos.le)
    have hy0 : (0 : ℚ) ≤ (roundHalfEven (r * (k : ℚ) / 2 ^ ulpExponent (r * (k : ℚ))) : ℚ)
        * 2 ^ ulpExponent (r * (k : ℚ)) :=
      mul_nonneg (by exact_mod_cast hN0) hepos.le
    have hyle : (roundHalfEven (r * (k : ℚ) / 2 ^ ulpExponent (r * (k : ℚ))) : ℚ)
        * 2 ^ ulpExponent (r * (k : ℚ))
        ≤ r * (k : ℚ) + 2 ^ ulpExponent (r * (k : ℚ)) / 2 := by
      have hle : (roundHalfEven (r * (k : ℚ) / 2 ^ ulpExponent (r * (k : ℚ))) : ℚ)
          ≤ r * (k : ℚ) / 2 ^ ulpExponent (r * (k : ℚ)) + 1 / 2 := by
        have := (abs_le.mp hN).2
        linarith
      have := mul_le_mul_of_nonneg_right hle hepos.le
      rw [add_mul, div_mul_cancel₀ _ hepos.ne'] at this
      linarith
    have hyk : (roundHalfEven (r * (k : ℚ) / 2 ^ ulpExponent (r * (k : ℚ))) : ℚ)
        * 2 ^ ulpExponent (r * (k : ℚ)) < (k : ℚ) := by
      have hlog := Int.zpow_log_le_self (R := ℚ) (b := 2) (by norm_num) hxpos
      have hlog2 := Int.lt_zpow_succ_log_self (R := ℚ) (b := 2) (by norm_num) (r * (k : ℚ))
      push_cast at hlog hlog2
      rcases le_total (-1074) (Int.log 2 (r * (k : ℚ)) - 52) with hc | hc
      · have he : ulpExponent (r * (k : ℚ)) = Int.log 2 (r * (k : ℚ)) - 52 := max_eq_left hc
        have hpow : (2 : ℚ) ^ ulpExponent (r * (k : ℚ)) ≤ r * (k : ℚ) / 2 ^ 52 := by
          rw [he, zpow_sub₀ (by norm_num : (2 : ℚ) ≠ 0)]
          have : (2 : ℚ) ^ (52 : ℤ) = 2 ^ 52 := by norm_cast
          rw [this]
          exact div_le_div_of_nonneg_right hlog (by positivity)
        have h3 : r * (k : ℚ) + 2 ^ ulpExponent (r * (k : ℚ)) / 2
            ≤ r * (k : ℚ) * (1 + 1 / 2 ^ 53) := by
          have : r * (k : ℚ) / 2 ^ 52 / 2 = r * (k : ℚ) * (1 / 2 ^ 53) := by ring
          linarith
        have h4 : r * (k : ℚ) * (1 + 1 / 2 ^ 53) ≤ (1 - 1 / 2 ^ 53) * k * (1 + 1 / 2 ^ 53) :=
          mul_le_mul_of_nonneg_right hxk (by positivity)
        have h5 : (1 - 1 / 2 ^ 53) * (k : ℚ) * (1 + 1 / 2 ^ 53) < (k : ℚ) := by
          have : (1 - 1 / 2 ^ 53) * (k : ℚ) * (1 + 1 / 2 ^ 53)
              = (k : ℚ) - (k : ℚ) * (1 / 2 ^ 53 * (1 / 2 ^ 53)) := by ring
          rw [this]
          have : (0 : ℚ) < (k : ℚ) * (1 / 2 ^ 53 * (1 / 2 ^ 53)) := by positivity
          linarith
        linarith
      · have he : ulpExponent (r * (k : ℚ)) = -1074 := max_eq_right hc
        have hsmall : r * (k : ℚ) < 2 ^ (-1021 : ℤ) := by
          refine lt_of_lt_of_le hlog2 ?_
          exact zpow_le_zpow_right₀ (by norm_num) (by linarith)
        have h1021 : (2 : ℚ) ^ (-1021 : ℤ) ≤ 1 / 4 := by
          have : (2 : ℚ) ^ (-1021 : ℤ) ≤ 2 ^ (-2 : ℤ) :=
            zpow_le_zpow_right₀ (by norm_num) (by norm_num)
          have h2 : (2 : ℚ) ^ (-2 : ℤ) = 1 / 4 := by norm_num
          linarith
        have h1074 : (2 : ℚ) ^ (-1074 : ℤ) ≤ 1 / 4 := by
          have : (2 : ℚ) ^ (-1074 : ℤ) ≤ 2 ^ (-2 : ℤ) :=
            zpow_le_zpow_right₀ (by norm_num) (by norm_num)
          have h2 : (2 : ℚ) ^ (-2 : ℤ) = 1 / 4 := by norm_num
          linarith
        rw [he] at hyle ⊢
        linarith
    refine ⟨_, ?_, hy0, hyk⟩
    have hnot : ¬ (2 : ℚ) ^ 1024 ≤ (roundHalfEven (r * (k : ℚ) / 2 ^ ulpExponent (r * (k : ℚ))) : ℚ)
        * 2 ^ ulpExponent (r * (k : ℚ)) := by
      have : (2 : ℚ) ^ 32 ≤ 2 ^ 1024 := pow_le_pow_right₀ (by norm_num) (by norm_num)
      intro hcon
      linarith
    have hneg : ¬ r * (k : ℚ) < 0 := not_lt.mpr hxpos.le
    simp only [roundToDouble, hx, if_false, abs_of_pos hxpos, hnot, hneg]

theorem randomIndex_lt (r : ℚ) (k : Nat) (hd : IsDouble r) (h0 : 0 ≤ r) (h1 : r < 1)
    (hk : 1 ≤ k) (hk32 : k < 2 ^ 32) :
    ∃ idx, randomIndex r k = some idx ∧ 0 ≤ idx ∧ idx < (k : Int) := by
  obtain ⟨y, hy, hy0, hyk⟩ := roundToDouble_product_lt r k hd h0 h1 hk hk32
  refine ⟨⌊y⌋, ?_, Int.floor_nonneg.mpr hy0, ?_⟩
  · simp only [randomIndex, hy]
  · rw [Int.floor_lt]
    exact_mod_cast hyk

theorem length_incrementAt (l : List Int) (idx : Int) :
    (incrementAt l idx).length = l.length := by
  induction l generalizing idx with
  | nil => rfl
  | cons x xs ih =>
    unfold incrementAt
    split
    · rfl
    · simp [ih]

theorem nonneg_incrementAt (l : List Int) (idx : Int) (h : ∀ x ∈ l, 0 ≤ x) :
    ∀ x ∈ incrementAt l idx, 0 ≤ x := by
  induction l generalizing idx with
  | nil => intro x hx; simp [incrementAt] at hx
  | cons y ys ih =>
    have hy : 0 ≤ y := h y (List.mem_cons_self y ys)
    have hys : ∀ x ∈ ys, 0 ≤ x := fun x hx => h x (List.mem_cons_of_mem y hx)
    intro x hx
    unfold incrementAt at hx
    split at hx
    · rcases List.mem_cons.mp hx with rfl | hx
      · unfold incrementEntry
        split <;> omega
      · exact hys x hx
    · rcases List.mem_cons.mp hx with rfl | hx
      · exact hy
      · exact ih (idx - 1) hys x hx

theorem sum_incrementAt (l : List Int) (idx : Int) (h0 : 0 ≤ idx) (h1 : idx < l.length)
    (hx : ∀ x ∈ l, x < 2 ^ 53) :
    (incrementAt l idx).sum = l.sum + 1 := by
  induction l generalizing idx with
  | nil => simp at h1; omega
  | cons y ys ih =>
    have hy : y < 2 ^ 53 := hx y (List.mem_cons_self y ys)
    have hys : ∀ x ∈ ys, x < 2 ^ 53 := fun x hm => hx x (List.mem_cons_of_mem y hm)
    unfold incrementAt
    split
    · have he : incrementEntry y = y + 1 := by
        unfold incrementEntry
        rw [if_neg (by omega)]
      rw [List.sum_cons, List.sum_cons, he]
      ring
    · have hlen : idx - 1 < ys.length := by
        simp only [List.length_cons, Nat.cast_add, Nat.cast_one] at h1
        omega
      rw [List.sum_cons, List.sum_cons, ih (idx - 1) (by omega) hlen hys]
      ring

theorem randomAllocation_succ (n k : Nat) (random : Nat → ℚ) :
    randomAllocation (n + 1) k random
      = drawSeat k (random n) (randomAllocation n k random) := by
  simp [randomAllocation, List.range_succ, List.foldl_append]

theorem randomAllocation_spec (n k : Nat) (random : Nat → ℚ) (hn : n ≤ 2 ^ 53)
    (hk : 1 ≤ k) (hk32 : k < 2 ^ 32)
    (hr : ∀ i, i < n → IsDouble (random i) ∧ 0 ≤ random i ∧ random i < 1) :
    (randomAllocation n k random).length = k
    ∧ (∀ x ∈ randomAllocation n k random, 0 ≤ x)
    ∧ (randomAllocation n k random).sum = (n : Int) := by
  induction n with
  | zero => simp [randomAllocation]
  | succ n ih =>
    obtain ⟨hlen, hpos, hsum⟩ := ih (by omega) (fun i hi => hr i (Nat.lt_succ_of_lt hi))
    obtain ⟨hd, hr0, hr1⟩ := hr n (Nat.lt_succ_self n)
    obtain ⟨idx, hidx, hf0, hf1⟩ := randomIndex_lt (random n) k hd hr0 hr1 hk hk32
    have hstep : randomAllocation (n + 1) k random
        = incrementAt (randomAllocation n k random) idx := by
      rw [randomAllocation_succ]
      simp only [drawSeat, hidx]
    have hbound : ∀ x ∈ randomAllocation n k random, x < 2 ^ 53 := by
      intro x hx
      have hle : x ≤ (randomAllocation n k random).sum := List.single_le_sum hpos x hx
      rw [hsum] at hle
      have : ((n : Int)) < 2 ^ 53 := by
        have : n < 2 ^ 53 := by omega
        exact_mod_cast this
      omega
    rw [hstep]
    refine ⟨?_, nonneg_incrementAt _ _ hpos, ?_⟩
    · rw [length_incrementAt, hlen]
    · rw [sum_incrementAt _ _ hf0 (by rw [hlen]; exact hf1) hbound, hsum]
      push_cast
      ring

theorem randomizeLoop_stuck (fuel : Nat) (T : Int) (k : Nat) (random : Nat → ℚ)
    (calls : Nat) (seats : List Int) (hT : (2 : Int) ^ 53 < T) :
    randomizeLoop fuel (.finite T) k random (2 ^ 53) calls seats = none := by
  induction fuel generalizing calls seats with
  | zero => rfl
  | succ fuel ih =>
    have hb : counterBelow (2 ^ 53) (.finite T) = true := by
      simp only [counterBelow, decide_eq_true_eq]
      exact_mod_cast hT
    have hc : counterIncrement (2 ^ 53) = 2 ^ 53 := by
      simp only [counterIncrement, if_true]
    rw [randomizeLoop, if_pos hb, hc]
    exact ih _ _

theorem randomizeLoop_spec (fuel : Nat) (T : Int) (k : Nat) (random : Nat → ℚ) (i : Nat)
    (seats alloc : List Int) (hi : i ≤ 2 ^ 53)
    (h : randomizeLoop fuel (.finite T) k random i i seats = some alloc) :
    alloc = (List.range' i (T.toNat - i)).foldl (fun acc j => drawSeat k (random j) acc) seats
    ∧ ((i : Int) < T → T ≤ 2 ^ 53) := by
  induction fuel generalizing i seats with
  | zero => cases h
  | succ fuel ih =>
    rw [randomizeLoop] at h
    by_cases hb : (i : Int) < T
    · have hcb : counterBelow i (.finite T) = true := by
        simp only [counterBelow, decide_eq_true_eq]
        exact hb
      rw [if_pos hcb] at h
      by_cases h53 : i = 2 ^ 53
      · have hT : (2 : Int) ^ 53 < T := by
          rw [h53] at hb
          exact_mod_cast hb
        have hc : counterIncrement i = 2 ^ 53 := by
          rw [counterIncrement, if_pos h53, h53]
        rw [hc, randomizeLoop_stuck fuel T k random _ _ hT] at h
        cases h
      · have hc : counterIncrement i = i + 1 := by
          simp only [counterIncrement, if_neg h53]
        rw [hc] at h
        obtain ⟨halloc, hle⟩ := ih (i + 1) _ (by omega) h
        have hlen : T.toNat - i = (T.toNat - (i + 1)) + 1 := by omega
        refine ⟨?_, fun _ => ?_⟩
        · rw [halloc, hlen, List.range'_succ, List.foldl_cons]
        · by_cases hnext : ((i + 1 : Nat) : Int) < T
          · exact hle hnext
          · have : (i : Int) + 1 ≤ 2 ^ 53 := by
              have : i + 1 ≤ 2 ^ 53 := by omega
              exact_mod_cast this
            push_cast at hnext
            omega
    · have hcb : counterBelow i (.finite T) = false := by
        simp only [counterBelow, decide_eq_false_iff_not]
        exact hb
      rw [if_neg (by simp [hcb])] at h
      have hz : T.toNat - i = 0 := by omega
      refine ⟨?_, fun hlt => absurd hlt hb⟩
      rw [hz]
      exact (Option.some.inj h).symm

theorem randomizeLoop_runs (T : Int) (k : Nat) (random : Nat → ℚ) (hT0 : 0 ≤ T)
    (hT : T ≤ 2 ^ 53) (m i : Nat) (seats : List Int) (him : i + m = T.toNat) :
    randomizeLoop (m + 1) (.finite T) k random i i seats
      = some ((List.range' i m).foldl (fun acc j => drawSeat k (random j) acc) seats) := by
  induction m generalizing i seats with
  | zero =>
    have hcb : counterBelow i (.finite T) = false := by
      simp only [counterBelow, decide_eq_false_iff_not]
      omega
    rw [randomizeLoop, if_neg (by simp [hcb])]
    rfl
  | succ m ih =>
    have hcb : counterBelow i (.finite T) = true := by
      simp only [counterBelow, decide_eq_true_eq]
      omega
    have h53 : i ≠ 2 ^ 53 := by
      have : T.toNat ≤ 2 ^ 53 := by omega
      omega
    have hc : counterIncrement i = i + 1 := by
      simp only [counterIncrement, if_neg h53]
    rw [randomizeLoop, if_pos hcb, hc, ih (i + 1) _ (by omega), List.range'_succ,
      List.foldl_cons]

theorem randomAllocation_eq_range' (n k : Nat) (random : Nat → ℚ) :
    randomAllocation n k random
      = (List.range' 0 n).foldl (fun acc j => drawSeat k (random j) acc)
          (List.replicate k 0) := by
  rw [randomAllocation, List.range_eq_range']

theorem map_seats_zipWith (groups : List TierGroup) (seats : List Int)
    (h : seats.length = groups.length) :
    (List.zipWith (fun (g : TierGroup) (n : Int) => { g with seats := toString n })
      groups seats).map (fun g => g.seats) = seats.map toString := by
  induction groups generalizing seats with
  | nil =>
    cases seats with
    | nil => rfl
    | cons x xs => simp at h
  | cons g gs ih =>
    cases seats with
    | nil => simp at h
    | cons x xs =>
      simp only [List.length_cons, add_left_inj] at h
      simp [ih xs h]

theorem randomizeRun_returns (s : AppState) (random : Nat → ℚ) (T : Int)
    (hT : parseIntNumber s.createEventForm.total_seats_for_event = .finite T)
    (hT0 : 0 < T) (hT53 : T ≤ 2 ^ 53) (hk : 1 ≤ s.tiersContainer.length)
    (hk32 : s.tiersContainer.length < 2 ^ 32) :
    randomizeRun (T.toNat + 1) random s
      = some (randomAllocation T.toNat s.tiersContainer.length random) := by
  have hne : T ≠ 0 := by omega
  have hrefused : randomizeRefused s = false := by
    have hk0 : s.tiersContainer.length ≠ 0 := by omega
    simp [randomizeRefused, hT, JsNumber.truthy, hne, hk0]
  rw [randomizeRun, hT]
  simp only [hrefused, Bool.false_eq_true, if_false, if_neg (not_le.mpr hk32)]
  rw [randomizeLoop_runs T _ random hT0.le hT53 T.toNat 0 _ (by omega),
    randomAllocation_eq_range']

theorem randomizeRun_never_returns (s : AppState) (random : Nat → ℚ) (T : Int) (fuel : Nat)
    (hT : parseIntNumber s.createEventForm.total_seats_for_event = .finite T)
    (hT53 : 2 ^ 53 < T) :
    randomizeRun fuel random s = none := by
  cases hrun : randomizeRun fuel random s with
  | none => rfl
  | some alloc =>
    rw [randomizeRun, hT] at hrun
    split at hrun
    · cases hrun
    · split at hrun
      · cases hrun
      · have := (randomizeLoop_spec fuel T _ random 0 _ alloc (by norm_num) hrun).2
          (by push_cast; omega)
        omega

/-- C2: for a declared total that `parseInt` reads as the number `T ≥ 0`, at least one
tier row and a random source whose values are doubles in `[0, 1)`, whenever the
randomize handler gets to the end of its loop, the `seatsPerTier` array it has
built has one entry per tier row, every entry is a non-negative integer and the
entries sum to exactly `T`; this array is the one the handler writes into the seat
inputs. -/
theorem randomizeSeats_allocation_sums_to_total (s : AppState) (random : Nat → ℚ) (T : Int)
    (fuel : Nat) (alloc : List Int)
    (hT : parseIntNumber s.createEventForm.total_seats_for_event = .finite T) (hT0 : 0 ≤ T)
    (hk : 1 ≤ s.tiersContainer.length)
    (hr : ∀ i, IsDouble (random i) ∧ 0 ≤ random i ∧ random i < 1)
    (h : randomizeRun fuel random s = some alloc) :
    alloc.length = s.tiersContainer.length
    ∧ (∀ x ∈ alloc, 0 ≤ x)
    ∧ alloc.sum = T
    ∧ seatsPerTier random s = some alloc
    ∧ (randomizeSeatsListener random s).tiersContainer.map (fun g => g.seats)
        = alloc.map toString := by
  rw [randomizeRun, hT] at h
  cases hrefused : randomizeRefused s with
  | true =>
    rw [hrefused, if_pos rfl] at h
    cases h
  | false =>
    rw [hrefused, if_neg (by decide)] at h
    by_cases hk32 : 2 ^ 32 ≤ s.tiersContainer.length
    · rw [if_pos hk32] at h
      cases h
    · rw [if_neg hk32] at h
      obtain ⟨halloc, hle⟩ :=
        randomizeLoop_spec fuel T _ random 0 _ alloc (by norm_num) h
      have hne : T ≠ 0 := by
        intro h0
        have : randomizeRefused s = true := by
          simp [randomizeRefused, hT, h0, JsNumber.truthy]
        rw [this] at hrefused
        cases hrefused
      have hT53 : T ≤ 2 ^ 53 := hle (by push_cast; omega)
      have hn : T.toNat ≤ 2 ^ 53 := by omega
      have heq : alloc = randomAllocation T.toNat s.tiersContainer.length random := by
        rw [randomAllocation_eq_range', halloc, Nat.sub_zero]
      obtain ⟨hlen, hpos, hsum⟩ := randomAllocation_spec T.toNat s.tiersContainer.length
        random hn hk (not_le.mp hk32) (fun i _ => hr i)
      have hseats : seatsPerTier random s = some alloc := by
        rw [seatsPerTier, hT]
        simp only [hrefused, Bool.false_eq_true, if_false, if_neg hk32, loopCount, if_pos hT53,
          Option.map_some', heq]
      subst heq
      refine ⟨hlen, hpos, ?_, hseats, ?_⟩
      · rw [hsum]
        exact Int.toNat_of_nonneg hT0
      · simp only [randomizeSeatsListener, hrefused, Bool.false_eq_true, if_false, hseats]
        exact map_seats_zipWith _ _ hlen

theorem roundHalfEven_intCast (n : Int) : roundHalfEven (n : ℚ) = n := by
  simp [roundHalfEven]

theorem randomIndex_zero (k : Nat) : randomIndex 0 k = some 0 := by
  simp [randomIndex, roundToDouble]

theorem randomIndex_half_two : randomIndex (1 / 2) 2 = some 1 := by
  have hlog : Int.log 2 (1 : ℚ) = 0 := Int.log_one_right 2
  have hulp : ulpExponent (1 : ℚ) = -52 := by
    rw [ulpExponent, hlog]
    norm_num
  have hdiv : (1 : ℚ) / 2 ^ (-52 : ℤ) = ((2 ^ 52 : Int) : ℚ) := by
    rw [zpow_neg, one_div, inv_inv]
    norm_cast
  have hmul : (((2 ^ 52 : Int) : ℚ)) * 2 ^ (-52 : ℤ) = 1 := by
    rw [zpow_neg]
    norm_cast
    norm_num
  have hone : roundToDouble 1 = .finite 1 := by
    have hnot : ¬ (2 : ℚ) ^ 1024 ≤ 1 := by
      have : (1 : ℚ) < 2 ^ 1024 := one_lt_pow₀ (by norm_num) (by norm_num)
      exact not_le.mpr this
    simp only [roundToDouble, one_ne_zero, if_false, abs_one, hulp, hdiv, roundHalfEven_intCast,
      hmul, hnot, not_lt.mpr (zero_le_one' ℚ)]
  have hprod : (1 : ℚ) / 2 * ((2 : Nat) : ℚ) = 1 := by norm_num
  simp [randomIndex, hprod, hone]

theorem fourThenHalf_range (i : Nat) :
    IsDouble (fourThenHalf i) ∧ 0 ≤ fourThenHalf i ∧ fourThenHalf i < 1 := by
  unfold fourThenHalf
  split
  · exact ⟨⟨0, 0, by norm_num, by norm_num, by norm_num, by norm_num⟩, le_refl 0, by norm_num⟩
  · exact ⟨⟨1, -1, by norm_num, by norm_num, by norm_num, by norm_num⟩, by norm_num,
      by norm_num⟩

theorem randomAllocation_fourThenHalf : randomAllocation 10 2 fourThenHalf = [4, 6] := by
  have hrange : List.range 10 = [0, 1, 2, 3, 4, 5, 6, 7, 8, 9] := by decide
  have hhalf : randomIndex 2⁻¹ 2 = some 1 := by
    rw [show (2 : ℚ)⁻¹ = 1 / 2 from by norm_num]
    exact randomIndex_half_two
  simp [randomAllocation, hrange, fourThenHalf, drawSeat, randomIndex_zero, hhalf,
    incrementAt, incrementEntry, List.replicate]

theorem randomizeRun_vipGeneral :
    randomizeRun 11 fourThenHalf vipGeneralState = some [4, 6] := by
  have h := randomizeRun_returns vipGeneralState fourThenHalf 10 (by decide) (by decide)
    (by norm_num) (by decide) (by decide)
  rw [show vipGeneralState.tiersContainer.length = 2 from by decide,
    show (10 : Int).toNat = 10 from rfl, randomAllocation_fourThenHalf] at h
  exact h

/-- C2 (witness): with a declared total of 10 over the rows VIP and General, and a random
source giving 0 four times and then 1/2, the handler ends its loop with 4 and 6
seats, which it writes into the two seat inputs. -/
theorem randomizeSeats_vip_general_sums_to_ten :
    randomizeRun 11 fourThenHalf vipGeneralState = some [4, 6]
    ∧ ([4, 6] : List Int).length = vipGeneralState.tiersContainer.length
    ∧ (∀ x ∈ ([4, 6] : List Int), 0 ≤ x)
    ∧ ([4, 6] : List Int).sum = 10
    ∧ seatsPerTier fourThenHalf vipGeneralState = some [4, 6]
    ∧ (randomizeSeatsListener fourThenHalf vipGeneralState).tiersContainer.map
        (fun g => g.seats) = ([4, 6] : List Int).map toString :=
  ⟨randomizeRun_vipGeneral,
    randomizeSeats_allocation_sums_to_total vipGeneralState fourThenHalf 10 11 [4, 6]
      (by decide) (by decide) (by decide) fourThenHalf_range randomizeRun_vipGeneral⟩

/-- C6: when the declared total does not parse as a number or parses to zero, or when
there is no tier row, the randomize handler only shows one error toast: every
seat input, and the rest of the page, stays as it was. -/
theorem randomizeSeats_refused (s : AppState) (random : Nat → ℚ)
    (h : parseInt s.createEventForm.total_seats_for_event = none
      ∨ parseInt s.createEventForm.total_seats_for_event = some 0
      ∨ s.tiersContainer.length = 0) :
    seatsPerTier random s = none
    ∧ randomizeSeatsListener random s =
      { s with toasts := s.toasts ++
          [⟨"Please enter total seats and add at least one tier.", .error⟩] } := by
  have hrefused : randomizeRefused s = true := by
    unfold randomizeRefused
    rcases h with h | h | h
    · simp [parseIntNumber, h, toNumber, JsNumber.truthy]
    · have h0 : JsNumber.ofInt 0 = .finite 0 := by decide
      simp [parseIntNumber, h, toNumber, h0, JsNumber.truthy]
    · simp [h]
  refine ⟨?_, ?_⟩
  · simp only [seatsPerTier, hrefused, if_true]
  · simp only [randomizeSeatsListener, hrefused, if_true]
    rfl

/-- C6 (witness): with two tier rows and an empty declared total the randomize handler
shows its error toast and leaves both seat inputs empty. -/
theorem randomizeSeats_refused_empty_total :
    seatsPerTier fourThenHalf
        { vipGeneralState with createEventForm := emptyForm } = none
    ∧ randomizeSeatsListener fourThenHalf
        { vipGeneralState with createEventForm := emptyForm } =
      { vipGeneralState with
        createEventForm := emptyForm
        toasts := [⟨"Please enter total seats and add at least one tier.", .error⟩] } :=
  randomizeSeats_refused { vipGeneralState with createEventForm := emptyForm } fourThenHalf
    (Or.inl (by decide))

/-! ## Book ticket: quantity and phone checks -/

theorem isTenDigits_iff (phone : String) :
    isTenDigits phone = true ↔ TenDecimalDigits phone := by
  unfold isTenDigits TenDecimalDigits
  simp only [Bool.and_eq_true, beq_iff_eq, List.all_eq_true, decide_eq_true_eq]
  constructor
  · rintro ⟨hlen, hall⟩
    refine ⟨hlen, fun c hc => ?_⟩
    have := hall c hc
    simp only [Char.isDigit, Bool.and_eq_true, decide_eq_true_eq]
    simp only [Char.toNat] at this
    constructor
    · show (48 : UInt32) ≤ c.val
      rw [UInt32.le_def]
      exact this.1
    · show c.val ≤ (57 : UInt32)
      rw [UInt32.le_def]
      exact this.2
  · rintro ⟨hlen, hall⟩
    refine ⟨hlen, fun c hc => ?_⟩
    have := hall c hc
    simp only [Char.isDigit, Bool.and_eq_true, decide_eq_true_eq] at this
    simp only [Char.toNat]
    constructor
    · have h1 : (48 : UInt32) ≤ c.val := this.1
      rw [UInt32.le_def] at h1
      exact h1
    · have h2 : c.val ≤ (57 : UInt32) := this.2
      rw [UInt32.le_def] at h2
      exact h2

/-- C3: with the phone dialog on display and its confirm button enabled, a click on the
confirm button issues the book-ticket call (with the event, tier and quantity
the dialog was opened for) if and only if the phone entered consists of exactly
ten decimal digits; for every other phone it changes nothing but for one error
toast, so no call is issued and the confirm button stays enabled. -/
theorem confirmBook_issues_iff_ten_digits (s : AppState) (eventId : Int) (tierId : String)
    (qty : Option Int) (phone text : String)
    (hcontent : s.infoModal = .phoneEntry eventId tierId qty phone false text)
    (hshown : s.infoModalHidden = false) :
    ∃ s', clickConfirmBookBtn s = some s'
      ∧ (s'.requests = s.requests ++ [.bookTicket phone eventId tierId qty]
          ↔ TenDecimalDigits phone)
      ∧ (TenDecimalDigits phone →
          s'.pending = s.pending ++ [.bookTicket s.infoModalNodes] ∧ s'.toasts = s.toasts)
      ∧ (¬ TenDecimalDigits phone →
          s' = { s with toasts := s.toasts ++
            [⟨"Please enter a valid 10-digit phone number.", .error⟩] }
          ∧ s'.requests = s.requests
          ∧ s'.infoModal = .phoneEntry eventId tierId qty phone false text) := by
  refine ⟨confirmBookListener eventId tierId qty s, ?_, ?_⟩
  · simp [clickConfirmBookBtn, hcontent, hshown]
  · by_cases hten : TenDecimalDigits phone
    · have hb : isTenDigits phone = true := (isTenDigits_iff phone).mpr hten
      refine ⟨⟨fun _ => hten, fun _ => ?_⟩, fun _ => ?_, fun hn => absurd hten hn⟩
      · simp only [confirmBookListener, hcontent, hb]
        rfl
      · simp only [confirmBookListener, hcontent, hb]
        exact ⟨rfl, rfl⟩
    · have hb : isTenDigits phone = false := by
        cases hc : isTenDigits phone with
        | false => rfl
        | true => exact absurd ((isTenDigits_iff phone).mp hc) hten
      refine ⟨⟨fun hreq => ?_, fun h => absurd h hten⟩, fun h => absurd h hten, fun _ => ?_⟩
      · simp [confirmBookListener, hcontent, hb, showToast] at hreq
      · have hl : confirmBookListener eventId tierId qty s =
            showToast "Please enter a valid 10-digit phone number." .error s := by
          simp [confirmBookListener, hcontent, hb]
        rw [hl]
        exact ⟨rfl, rfl, hcontent⟩

/-- C3 (witness): with the five characters 12345 typed as phone, a click on the confirm
button issues no call and shows the phone error. -/
theorem confirmBook_five_digits_rejected :
    ∃ s', clickConfirmBookBtn (phoneDialogState "12345") = some s'
      ∧ (s'.requests = (phoneDialogState "12345").requests ++ [.bookTicket "12345" 1 "7" (some 2)]
          ↔ TenDecimalDigits "12345")
      ∧ (TenDecimalDigits "12345" →
          s'.pending = (phoneDialogState "12345").pending ++
              [.bookTicket (phoneDialogState "12345").infoModalNodes]
            ∧ s'.toasts = (phoneDialogState "12345").toasts)
      ∧ (¬ TenDecimalDigits "12345" →
          s' = { phoneDialogState "12345" with toasts := (phoneDialogState "12345").toasts ++
            [⟨"Please enter a valid 10-digit phone number.", .error⟩] }
          ∧ s'.requests = (phoneDialogState "12345").requests
          ∧ s'.infoModal = .phoneEntry 1 "7" (some 2) "12345" false "Confirm Booking") :=
  confirmBook_issues_iff_ten_digits (phoneDialogState "12345") 1 "7" (some 2) "12345"
    "Confirm Booking" (by decide) (by decide)

/-- C4: when the value of the quantity input parses to a number `q ≤ 0`,
`handleBookTicket` changes nothing but for one error toast: the phone dialog is
not opened, so no confirm button exists from which a book-ticket call could be
issued, and no call is issued or left suspended. -/
theorem handleBookTicket_rejects_nonpositive (s : AppState) (eventId : Int) (tierId : String)
    (qtyInputValue : String) (q : Int)
    (hq : parseInt qtyInputValue = some q) (hle : q ≤ 0) :
    handleBookTicket eventId tierId qtyInputValue s =
      { s with toasts := s.toasts ++ [⟨"Please enter a valid quantity.", .error⟩] } := by
  simp only [handleBookTicket, hq, jsLeZero, hle, decide_True, if_true]
  rfl

/-- C4 (witness): a quantity of -3 on the freshly loaded page gives the quantity error
and nothing else. -/
theorem handleBookTicket_rejects_minus_three :
    handleBookTicket 1 "7" "-3" (initialState emptyForm true) =
      { initialState emptyForm true with
        toasts := (initialState emptyForm true).toasts ++
          [⟨"Please enter a valid quantity.", .error⟩] } :=
  handleBookTicket_rejects_nonpositive (initialState emptyForm true) 1 "7" "-3" (-3)
    (by decide) (by decide)

/-- C5 (the code at the failing input): an empty quantity input parses to NaN, which
passes the test `qty <= 0`; `handleBookTicket` shows no toast and opens the phone
dialog, and confirming with a ten digit phone issues the book-ticket call with a
NaN quantity. -/
theorem handleBookTicket_empty_quantity_opens_dialog :
    parseInt "" = none
    ∧ handleBookTicket 1 "7" "" (initialState emptyForm true) =
        showInfoModal (.phoneEntry 1 "7" none "" false "Confirm Booking")
          (initialState emptyForm true)
    ∧ (handleBookTicket 1 "7" "" (initialState emptyForm true)).toasts = []
    ∧ (handleBookTicket 1 "7" "" (initialState emptyForm true)).infoModalHidden = false
    ∧ (clickConfirmBookBtn (typeInInfoModal "1234567890"
          (handleBookTicket 1 "7" "" (initialState emptyForm true)))).map (fun s => s.requests)
        = some [.bookTicket "1234567890" 1 "7" none] := by
  decide

/-! ## Refresh after a successful mutation -/

theorem cache_handleCreateEventResume (r : Response Unit) (s : AppState) :
    (handleCreateEventResume r s).events = s.events
    ∧ (handleCreateEventResume r s).sponsors = s.sponsors := by
  unfold handleCreateEventResume
  split <;> exact ⟨rfl, rfl⟩

theorem cache_confirmDeleteResume (r : Response Unit) (s : AppState) :
    (confirmDeleteResume r s).events = s.events
    ∧ (confirmDeleteResume r s).sponsors = s.sponsors := by
  unfold confirmDeleteResume
  split <;> exact ⟨rfl, rfl⟩

theorem cache_enableConfirmBook (target : Nat) (s : AppState) :
    (enableConfirmBook target s).events = s.events
    ∧ (enableConfirmBook target s).sponsors = s.sponsors
    ∧ (enableConfirmBook target s).requests = s.requests
    ∧ (enableConfirmBook target s).pending = s.pending
    ∧ (enableConfirmBook target s).toasts = s.toasts
    ∧ (enableConfirmBook target s).modalBackdropHidden = s.modalBackdropHidden
    ∧ (enableConfirmBook target s).createEventModalHidden = s.createEventModalHidden
    ∧ (enableConfirmBook target s).infoModalHidden = s.infoModalHidden
    ∧ (enableConfirmBook target s).bookingsModalHidden = s.bookingsModalHidden := by
  unfold enableConfirmBook
  split
  · split <;> exact ⟨rfl, rfl, rfl, rfl, rfl, rfl, rfl, rfl, rfl⟩
  · exact ⟨rfl, rfl, rfl, rfl, rfl, rfl, rfl, rfl, rfl⟩

theorem cache_confirmBookResume (target : Nat) (r : Response BookingResult) (s : AppState) :
    (confirmBookResume target r s).events = s.events
    ∧ (confirmBookResume target r s).sponsors = s.sponsors := by
  unfold confirmBookResume
  split
  · exact ⟨rfl, rfl⟩
  · exact ⟨(cache_enableConfirmBook target _).1, (cache_enableConfirmBook target _).2.1⟩

theorem cache_handleVerifyTicketResume (r : Response TicketDetails) (s : AppState) :
    (handleVerifyTicketResume r s).events = s.events
    ∧ (handleVerifyTicketResume r s).sponsors = s.sponsors := by
  unfold handleVerifyTicketResume
  split <;> exact ⟨rfl, rfl⟩

theorem cache_handleSaveSponsorResume (r : Response Unit) (s : AppState) :
    (handleSaveSponsorResume r s).events = s.events
    ∧ (handleSaveSponsorResume r s).sponsors = s.sponsors := by
  unfold handleSaveSponsorResume
  split <;> exact ⟨rfl, rfl⟩

theorem cache_handleViewBookingsResume (r : Response (List Booking)) (s : AppState) :
    (handleViewBookingsResume r s).events = s.events
    ∧ (handleViewBookingsResume r s).sponsors = s.sponsors := by
  unfold handleViewBookingsResume
  split
  · split <;> exact ⟨rfl, rfl⟩
  · exact ⟨rfl, rfl⟩

/-- The lists a resolution can write into the cache: the pair of lists of a
completed `Promise.all` of `initializeApp` (one list in the answer, the other
fulfilled earlier), or the list answered to the `getSponsors` call of
`handleSaveSponsor`. -/
def FetchedInto (i : Nat) (res : Resolution) (s s' : AppState) : Prop :=
  (∃ events sponsors, s'.events = events ∧ s'.sponsors = sponsors
    ∧ ((res = .initEvents (.ok events)
          ∧ s.pending[i]? = some (.initializeApp .waiting (.fulfilled sponsors)))
      ∨ (res = .initSponsors (.ok sponsors)
          ∧ s.pending[i]? = some (.initializeApp (.fulfilled events) .waiting))))
  ∨ (∃ sponsors, s'.events = s.events ∧ s'.sponsors = sponsors
    ∧ res = .getSponsors (.ok sponsors) ∧ s.pending[i]? = some .getSponsors)

theorem cache_settle (i : Nat) (s : AppState) (next : AppState × Option Pending) :
    (settle i s next).events = next.1.events ∧ (settle i s next).sponsors = next.1.sponsors := by
  unfold settle
  split <;> exact ⟨rfl, rfl⟩

theorem resolve_cache (i : Nat) (res : Resolution) (s s' : AppState)
    (h : resolve i res s = some s') :
    (s'.events = s.events ∧ s'.sponsors = s.sponsors) ∨ FetchedInto i res s s' := by
  unfold resolve at h
  split at h
  · cases h; exact Or.inl (cache_handleCreateEventResume _ _)
  · cases h; exact Or.inl (cache_confirmDeleteResume _ _)
  · cases h; exact Or.inl (cache_confirmBookResume _ _ _)
  · cases h; exact Or.inl (cache_handleVerifyTicketResume _ _)
  · cases h; exact Or.inl (cache_handleSaveSponsorResume _ _)
  · next r hp =>
    cases h
    cases r with
    | ok sponsors =>
      exact Or.inr (Or.inr ⟨sponsors, rfl, rfl, rfl, hp⟩)
    | notOk d => cases d <;> exact Or.inl ⟨rfl, rfl⟩
    | thrown m => exact Or.inl ⟨rfl, rfl⟩
  · cases h; exact Or.inl (cache_handleViewBookingsResume _ _)
  · next sp r hp =>
    cases h
    obtain ⟨he, hs⟩ := cache_settle i s (initEventsResume r sp s)
    rw [he, hs]
    cases r with
    | ok events =>
      cases sp with
      | waiting => exact Or.inl ⟨rfl, rfl⟩
      | fulfilled sponsors =>
        exact Or.inr (Or.inl ⟨events, sponsors, rfl, rfl, Or.inl ⟨rfl, hp⟩⟩)
      | rejected => exact Or.inl ⟨rfl, rfl⟩
    | notOk d => cases d <;> cases sp <;> exact Or.inl ⟨rfl, rfl⟩
    | thrown m => cases sp <;> exact Or.inl ⟨rfl, rfl⟩
  · next _ _ ev r hp =>
    cases h
    obtain ⟨he, hs⟩ := cache_settle i s (initSponsorsResume r ev s)
    rw [he, hs]
    cases r with
    | ok sponsors =>
      cases ev with
      | waiting => exact Or.inl ⟨rfl, rfl⟩
      | fulfilled events =>
        exact Or.inr (Or.inl ⟨events, sponsors, rfl, rfl, Or.inr ⟨rfl, hp⟩⟩)
      | rejected => exact Or.inl ⟨rfl, rfl⟩
    | notOk d => cases d <;> cases ev <;> exact Or.inl ⟨rfl, rfl⟩
    | thrown m => cases ev <;> exact Or.inl ⟨rfl, rfl⟩
  · cases h

theorem cache_handleCreateEvent (s : AppState) :
    (handleCreateEvent s).events = s.events ∧ (handleCreateEvent s).sponsors = s.sponsors := by
  unfold handleCreateEvent
  simp only
  split <;> exact ⟨rfl, rfl⟩

theorem cache_confirmBookListener (eventId : Int) (tierId : String) (qty : Option Int)
    (s : AppState) :
    (confirmBookListener eventId tierId qty s).events = s.events
    ∧ (confirmBookListener eventId tierId qty s).sponsors = s.sponsors := by
  unfold confirmBookListener
  split
  · split <;> exact ⟨rfl, rfl⟩
  · exact ⟨rfl, rfl⟩

theorem cache_handleSaveSponsor (s : AppState) :
    (handleSaveSponsor s).events = s.events ∧ (handleSaveSponsor s).sponsors = s.sponsors := by
  unfold handleSaveSponsor
  split
  · split <;> exact ⟨rfl, rfl⟩
  · exact ⟨rfl, rfl⟩

/-- C7: in each mutating flow, once the mutating call has succeeded the handler issues
the list calls that refresh the cache (list events and list sponsors after create
event, delete event and book ticket; list sponsors after add sponsor) and leaves
the cache as it is until they answer. The cache is written by no handler before
its call resolves, and a resolution either leaves `state.events` and
`state.sponsors` as they were or assigns lists just fetched: the two lists of a
completed `initializeApp`, or the list answered to the list-sponsors call of
`handleSaveSponsor`. -/
theorem mutation_success_refreshes_cache (s : AppState) :
    (∀ v, (handleCreateEventResume (.ok v) s).requests = s.requests ++ [.getEvents, .getSponsors]
        ∧ (handleCreateEventResume (.ok v) s).pending
            = s.pending ++ [.initializeApp .waiting .waiting])
    ∧ (∀ v, (confirmDeleteResume (.ok v) s).requests = s.requests ++ [.getEvents, .getSponsors]
        ∧ (confirmDeleteResume (.ok v) s).pending
            = s.pending ++ [.initializeApp .waiting .waiting])
    ∧ (∀ target result,
        (confirmBookResume target (.ok result) s).requests
            = s.requests ++ [.getEvents, .getSponsors]
        ∧ (confirmBookResume target (.ok result) s).pending
            = s.pending ++ [.initializeApp .waiting .waiting])
    ∧ (∀ v, (handleSaveSponsorResume (.ok v) s).requests = s.requests ++ [.getSponsors]
        ∧ (handleSaveSponsorResume (.ok v) s).pending = s.pending ++ [.getSponsors])
    ∧ (∀ i events sponsors,
        s.pending[i]? = some (.initializeApp .waiting (.fulfilled sponsors)) →
        ∃ s', resolve i (.initEvents (.ok events)) s = some s'
          ∧ s'.events = events ∧ s'.sponsors = sponsors)
    ∧ (∀ i events sponsors,
        s.pending[i]? = some (.initializeApp (.fulfilled events) .waiting) →
        ∃ s', resolve i (.initSponsors (.ok sponsors)) s = some s'
          ∧ s'.events = events ∧ s'.sponsors = sponsors)
    ∧ (∀ i sponsors, s.pending[i]? = some .getSponsors →
        ∃ s', resolve i (.getSponsors (.ok sponsors)) s = some s'
          ∧ s'.events = s.events ∧ s'.sponsors = sponsors)
    ∧ ((handleCreateEvent s).events = s.events ∧ (handleCreateEvent s).sponsors = s.sponsors)
    ∧ (∀ eventId, (confirmDeleteListener eventId s).events = s.events
        ∧ (confirmDeleteListener eventId s).sponsors = s.sponsors)
    ∧ (∀ eventId tierId qty, (confirmBookListener eventId tierId qty s).events = s.events
        ∧ (confirmBookListener eventId tierId qty s).sponsors = s.sponsors)
    ∧ ((handleSaveSponsor s).events = s.events ∧ (handleSaveSponsor s).sponsors = s.sponsors)
    ∧ (∀ i res s', resolve i res s = some s' →
        (s'.events = s.events ∧ s'.sponsors = s.sponsors) ∨ FetchedInto i res s s') := by
  have hinit : ∀ t : AppState,
      (initializeApp t).requests = t.requests ++ [.getEvents, .getSponsors] := by
    intro t
    simp [initializeApp, issue, suspend]
  refine ⟨fun _ => ⟨(hinit _).trans rfl, rfl⟩, fun _ => ⟨(hinit _).trans rfl, rfl⟩,
    fun _ _ => ⟨(hinit _).trans rfl, rfl⟩, fun _ => ⟨rfl, rfl⟩,
    ?_, ?_, ?_, cache_handleCreateEvent s, fun _ => ⟨rfl, rfl⟩,
    fun e t q => cache_confirmBookListener e t q s, cache_handleSaveSponsor s,
    fun i res s' h => resolve_cache i res s s' h⟩
  · intro i events sponsors hp
    refine ⟨settle i s (initEventsResume (.ok events) (.fulfilled sponsors) s), ?_, rfl, rfl⟩
    simp only [resolve, hp]
  · intro i events sponsors hp
    refine ⟨settle i s (initSponsorsResume (.ok sponsors) (.fulfilled events) s), ?_, rfl, rfl⟩
    simp only [resolve, hp]
  · intro i sponsors hp
    refine ⟨handleSaveSponsorListed (.ok sponsors) { s with pending := s.pending.eraseIdx i },
      ?_, rfl, rfl⟩
    simp only [resolve, hp]

/-! ## Duplicate submission -/

/-- C8 (the code at the failing input): the listener of the delete confirm button never
disables it, so a second click while the first delete call is in flight goes
through and two delete calls for event 1 are in flight; the verify and save-sponsor
buttons behave the same. The book confirm button is disabled by its listener, so
its second click is not possible, and so is the create-event submit button. -/
theorem confirmDelete_second_click_issues_second_call :
    ((clickConfirmDeleteBtn deleteDialogState).bind clickConfirmDeleteBtn).map
        (fun s => (s.requests, s.pending))
      = some ([.deleteEvent 1, .deleteEvent 1], [.deleteEvent, .deleteEvent])
    ∧ ((clickConfirmVerifyBtn (verifyDialogState "abc123")).bind clickConfirmVerifyBtn).map
        (fun s => (s.requests, s.pending))
      = some ([.verifyTicket "abc123", .verifyTicket "abc123"], [.verifyTicket, .verifyTicket])
    ∧ ((clickSaveSponsorBtn (sponsorDialogState "Acme")).bind clickSaveSponsorBtn).map
        (fun s => (s.requests, s.pending))
      = some ([.createSponsor "Acme" "", .createSponsor "Acme" ""],
          [.createSponsor, .createSponsor])
    ∧ (clickConfirmBookBtn (phoneDialogState "1234567890")).map
        (fun s => (s.requests, s.pending))
      = some ([.bookTicket "1234567890" 1 "7" (some 2)], [.bookTicket 1])
    ∧ (clickConfirmBookBtn (phoneDialogState "1234567890")).bind clickConfirmBookBtn = none
    ∧ (submitCreateEventForm oneTierState).map (fun s => (s.requests.length, s.pending))
      = some (1, [.createEvent])
    ∧ (submitCreateEventForm oneTierState).bind submitCreateEventForm = none := by
  decide

/-! ## Delete event: confirmation and dismissal -/

/-- C9: `handleDeleteEvent` opens the confirmation naming the event and issues no call.
From there a click on the dismiss button closes the info modal and the backdrop,
issues no call, suspends nothing, leaves `state.events` and `state.sponsors` as
they were and takes the confirm button away; a click on the confirm button
issues the delete call with exactly the id of the event named; no other
button of the info modal is there to click; and in any state a click on the
confirm button issues the delete call for the id of the confirmation on display. -/
theorem deleteConfirmation_dismiss_issues_nothing (s : AppState) (eventId : Int)
    (eventTitle : String) :
    (handleDeleteEvent eventId eventTitle s).infoModal = .confirmDeletion eventId eventTitle
    ∧ (handleDeleteEvent eventId eventTitle s).infoModalHidden = false
    ∧ (handleDeleteEvent eventId eventTitle s).requests = s.requests
    ∧ (handleDeleteEvent eventId eventTitle s).pending = s.pending
    ∧ (∃ s', clickInfoModalCloseBtn (handleDeleteEvent eventId eventTitle s) = some s'
        ∧ s'.infoModalHidden = true ∧ s'.modalBackdropHidden = true
        ∧ s'.requests = s.requests ∧ s'.pending = s.pending
        ∧ s'.events = s.events ∧ s'.sponsors = s.sponsors
        ∧ clickConfirmDeleteBtn s' = none)
    ∧ (∃ s', clickConfirmDeleteBtn (handleDeleteEvent eventId eventTitle s) = some s'
        ∧ s'.requests = s.requests ++ [.deleteEvent eventId]
        ∧ s'.pending = s.pending ++ [.deleteEvent])
    ∧ (clickConfirmBookBtn (handleDeleteEvent eventId eventTitle s) = none
        ∧ clickConfirmVerifyBtn (handleDeleteEvent eventId eventTitle s) = none
        ∧ clickSaveSponsorBtn (handleDeleteEvent eventId eventTitle s) = none)
    ∧ (∀ t t', clickConfirmDeleteBtn t = some t' →
        ∃ id title, t.infoModal = .confirmDeletion id title
          ∧ t'.requests = t.requests ++ [.deleteEvent id]) := by
  refine ⟨rfl, rfl, rfl, rfl, ⟨_, rfl, rfl, rfl, rfl, rfl, rfl, rfl, rfl⟩, ⟨_, rfl, rfl, rfl⟩,
    ⟨rfl, rfl, rfl⟩, ?_⟩
  intro t t' h
  unfold clickConfirmDeleteBtn at h
  split at h
  · next id title hc =>
    split at h
    · cases h
    · cases h
      exact ⟨id, title, hc, rfl⟩
  · cases h

/-! ## Remote failures -/

theorem apiResult_failsWith {α : Type} (r : Response α) (m : String) (hm : m ≠ "")
    (h : FailsWith r m) : apiResult r = .error m := by
  have hne : m.isEmpty = false := by
    cases hb : m.isEmpty with
    | false => rfl
    | true => exact absurd ((String.isEmpty_iff m).mp hb) hm
  rcases h with h | h
  · subst h
    simp [apiResult, hne]
  · subst h
    rfl

/-- C10 (as amended): for every non-empty failure message `m` and each flow with a remote call,
when the call fails with `m` the page changes only as follows: an error toast
carrying `m` is appended (two of them in the verify flow), and the create-event
submit button and the book confirm button are enabled again. So no modal is
closed or opened, the content of the info modal stays (the phone dialog at most
gets its button back), `state.events` and `state.sponsors` are unchanged, and no
further call is issued or left suspended. -/
theorem remote_failure_leaves_flow_in_place (s : AppState) (m : String) (hm : m ≠ "") :
    (∀ r, FailsWith r m → handleCreateEventResume r s =
        { s with toasts := s.toasts ++ [⟨m, .error⟩]
                 submitBtnDisabled := false
                 submitBtnText := "Create Event" })
    ∧ (∀ r, FailsWith r m → confirmDeleteResume r s =
        { s with toasts := s.toasts ++ [⟨m, .error⟩] })
    ∧ (∀ target r, FailsWith r m →
        ∃ content, confirmBookResume target r s =
            { s with toasts := s.toasts ++ [⟨m, .error⟩], infoModal := content }
          ∧ (content = s.infoModal
            ∨ ∃ e t q phone d text, s.infoModal = .phoneEntry e t q phone d text
                ∧ content = .phoneEntry e t q phone false "Confirm Booking"))
    ∧ (∀ r, FailsWith r m → handleVerifyTicketResume r s =
        { s with toasts := s.toasts ++ [⟨m, .error⟩, ⟨m, .error⟩] })
    ∧ (∀ r, FailsWith r m → handleSaveSponsorResume r s =
        { s with toasts := s.toasts ++ [⟨m, .error⟩] }) := by
  refine ⟨fun r h => ?_, fun r h => ?_, fun target r h => ?_, fun r h => ?_, fun r h => ?_⟩
  · simp only [handleCreateEventResume, apiResult_failsWith r m hm h]
    rfl
  · simp only [confirmDeleteResume, apiResult_failsWith r m hm h]
    rfl
  · simp only [confirmBookResume, apiResult_failsWith r m hm h]
    cases hc : s.infoModal with
    | phoneEntry e t q phone d text =>
      by_cases hn : s.infoModalNodes = target
      · refine ⟨.phoneEntry e t q phone false "Confirm Booking", ?_,
          Or.inr ⟨e, t, q, phone, d, text, rfl, rfl⟩⟩
        simp [enableConfirmBook, showToast, hc, hn]
      · refine ⟨.phoneEntry e t q phone d text, ?_, Or.inl rfl⟩
        simp [enableConfirmBook, showToast, hc, hn]
    | empty => exact ⟨.empty, by simp [enableConfirmBook, showToast, hc], Or.inl rfl⟩
    | confirmDeletion a b =>
      exact ⟨.confirmDeletion a b, by simp [enableConfirmBook, showToast, hc], Or.inl rfl⟩
    | verifyEntry a =>
      exact ⟨.verifyEntry a, by simp [enableConfirmBook, showToast, hc], Or.inl rfl⟩
    | ticketVerified a =>
      exact ⟨.ticketVerified a, by simp [enableConfirmBook, showToast, hc], Or.inl rfl⟩
    | bookingSuccessful a =>
      exact ⟨.bookingSuccessful a, by simp [enableConfirmBook, showToast, hc], Or.inl rfl⟩
    | addSponsor a b =>
      exact ⟨.addSponsor a b, by simp [enableConfirmBook, showToast, hc], Or.inl rfl⟩
  · simp only [handleVerifyTicketResume, apiResult_failsWith r m hm h]
    simp [showToast]
  · simp only [handleSaveSponsorResume, apiResult_failsWith r m hm h]
    rfl

/-- C10 (witness): the verify call for the hash abc123 fails with the message Ticket not
found; the message is shown in two error toasts and nothing else changes, so the
verify dialog stays and no result is shown. -/
theorem remote_failure_ticket_not_found :
    "Ticket not found" ≠ ""
    ∧ handleVerifyTicketResume (.notOk (some "Ticket not found")) (verifyDialogState "abc123") =
      { verifyDialogState "abc123" with
        toasts := (verifyDialogState "abc123").toasts ++
          [⟨"Ticket not found", .error⟩, ⟨"Ticket not found", .error⟩] } :=
  ⟨by decide,
    (remote_failure_leaves_flow_in_place (verifyDialogState "abc123") "Ticket not found"
      (by decide)).2.2.2.1 _ (Or.inl rfl)⟩

/-- C10 (counterexample): the book call fails with an empty failure message; the toast shown
carries the fallback text of `api.request`, not the empty message. -/
theorem remote_failure_empty_message_replaced :
    FailsWith (.notOk (some "") : Response BookingResult) ""
    ∧ ((clickConfirmBookBtn (phoneDialogState "1234567890")).bind
          (resolve 0 (.bookTicket (.notOk (some ""))))).map (fun s => s.toasts)
        = some [⟨"An unknown error occurred", .error⟩] :=
  ⟨Or.inl rfl, by decide⟩

/-! ## Initial load and refresh: `initializeApp` -/

theorem pending_initializeApp_last (s : AppState) :
    (initializeApp s).pending[s.pending.length]? = some (.initializeApp .waiting .waiting) := by
  show (s.pending ++ [Pending.initializeApp .waiting .waiting])[s.pending.length]? = _
  simp

theorem resolve_initEvents (i : Nat) (r : Response (List Event)) (sp : Slot (List Sponsor))
    (s : AppState) (h : s.pending[i]? = some (.initializeApp .waiting sp)) :
    resolve i (.initEvents r) s = some (settle i s (initEventsResume r sp s)) := by
  simp only [resolve, h]

theorem resolve_initSponsors (i : Nat) (r : Response (List Sponsor)) (ev : Slot (List Event))
    (s : AppState) (h : s.pending[i]? = some (.initializeApp ev .waiting)) :
    resolve i (.initSponsors r) s = some (settle i s (initSponsorsResume r ev s)) := by
  simp only [resolve, h]

theorem pending_settle_some (i : Nat) (s t : AppState) (p : Pending) (hi : i < s.pending.length) :
    (settle i s (t, some p)).pending[i]? = some p := by
  show (s.pending.set i p)[i]? = some p
  simp [hi]

theorem apiResult_of_not_fulfils {α : Type} (r : Response α) (h : r.fulfils = false) :
    ∃ message, apiResult r = .error message := by
  rcases r with v | d | message
  · cases h
  · cases d
    · exact ⟨_, rfl⟩
    · exact ⟨_, rfl⟩
  · exact ⟨_, rfl⟩

theorem initEventsResume_failed (r : Response (List Event)) (message : String) (s : AppState)
    (h : apiResult r = .error message) :
    initEventsResume r .waiting s
      = (initializeAppFailed (showToast message .error s),
          some (.initializeApp .rejected .waiting)) := by
  simp only [initEventsResume, h]

theorem initSponsorsResume_failed (r : Response (List Sponsor)) (message : String)
    (s : AppState) (h : apiResult r = .error message) :
    initSponsorsResume r .waiting s
      = (initializeAppFailed (showToast message .error s),
          some (.initializeApp .waiting .rejected)) := by
  simp only [initSponsorsResume, h]

theorem cache_initializeAppFailed (message : String) (s : AppState) :
    (initializeAppFailed (showToast message .error (initializeApp s))).events = s.events
    ∧ (initializeAppFailed (showToast message .error (initializeApp s))).sponsors
        = s.sponsors := by
  constructor <;> simp only [initializeAppFailed, showToast, initializeApp, suspend, issue]

theorem initializeApp_first_events (re : Response (List Event)) (s : AppState) :
    ∃ mid slot, resolve s.pending.length (.initEvents re) (initializeApp s) = some mid
      ∧ mid.pending[s.pending.length]? = some (.initializeApp slot .waiting)
      ∧ mid.events = s.events ∧ mid.sponsors = s.sponsors
      ∧ (∀ events, re = .ok events → slot = .fulfilled events)
      ∧ (re.fulfils = false → slot = .rejected) := by
  have hi : s.pending.length < (initializeApp s).pending.length := by
    show s.pending.length < (s.pending ++ [Pending.initializeApp .waiting .waiting]).length
    simp
  rw [resolve_initEvents _ re .waiting _ (pending_initializeApp_last s)]
  cases hf : re.fulfils with
  | true =>
    rcases re with events | d | message
    · exact ⟨_, .fulfilled events, rfl, pending_settle_some _ _ _ _ hi, rfl, rfl,
        fun e he => by cases he; rfl, fun h => by cases h⟩
    · cases hf
    · cases hf
  | false =>
    obtain ⟨message, hm⟩ := apiResult_of_not_fulfils re hf
    rw [initEventsResume_failed re message _ hm]
    refine ⟨_, .rejected, rfl, pending_settle_some _ _ _ _ hi,
      (cache_settle _ _ _).1.trans (cache_initializeAppFailed message s).1,
      (cache_settle _ _ _).2.trans (cache_initializeAppFailed message s).2, ?_, fun _ => rfl⟩
    intro e he
    subst he
    cases hf

theorem initializeApp_first_sponsors (rs : Response (List Sponsor)) (s : AppState) :
    ∃ mid slot, resolve s.pending.length (.initSponsors rs) (initializeApp s) = some mid
      ∧ mid.pending[s.pending.length]? = some (.initializeApp .waiting slot)
      ∧ mid.events = s.events ∧ mid.sponsors = s.sponsors
      ∧ (∀ sponsors, rs = .ok sponsors → slot = .fulfilled sponsors)
      ∧ (rs.fulfils = false → slot = .rejected) := by
  have hi : s.pending.length < (initializeApp s).pending.length := by
    show s.pending.length < (s.pending ++ [Pending.initializeApp .waiting .waiting]).length
    simp
  rw [resolve_initSponsors _ rs .waiting _ (pending_initializeApp_last s)]
  cases hf : rs.fulfils with
  | true =>
    rcases rs with sponsors | d | message
    · exact ⟨_, .fulfilled sponsors, rfl, pending_settle_some _ _ _ _ hi, rfl, rfl,
        fun e he => by cases he; rfl, fun h => by cases h⟩
    · cases hf
    · cases hf
  | false =>
    obtain ⟨message, hm⟩ := apiResult_of_not_fulfils rs hf
    rw [initSponsorsResume_failed rs message _ hm]
    refine ⟨_, .rejected, rfl, pending_settle_some _ _ _ _ hi,
      (cache_settle _ _ _).1.trans (cache_initializeAppFailed message s).1,
      (cache_settle _ _ _).2.trans (cache_initializeAppFailed message s).2, ?_, fun _ => rfl⟩
    intro e he
    subst he
    cases hf

theorem initializeApp_second_sponsors (i : Nat) (slot : Slot (List Event))
    (rs : Response (List Sponsor)) (mid : AppState)
    (h : mid.pending[i]? = some (.initializeApp slot .waiting)) :
    ∃ s', resolve i (.initSponsors rs) mid = some s'
      ∧ (∀ events sponsors, slot = .fulfilled events → rs = .ok sponsors →
          s'.events = events ∧ s'.sponsors = sponsors)
      ∧ (slot = .rejected ∨ rs.fulfils = false →
          s'.events = mid.events ∧ s'.sponsors = mid.sponsors) := by
  rw [resolve_initSponsors i rs slot mid h]
  refine ⟨_, rfl, ?_, ?_⟩
  · rintro events sponsors rfl rfl
    exact ⟨rfl, rfl⟩
  · intro hfail
    obtain ⟨he, hs⟩ := cache_settle i mid (initSponsorsResume rs slot mid)
    rw [he, hs]
    rcases rs with sponsors | d | message
    · rcases hfail with hslot | hrs
      · subst hslot
        exact ⟨rfl, rfl⟩
      · cases hrs
    · cases d <;> cases slot <;> exact ⟨rfl, rfl⟩
    · cases slot <;> exact ⟨rfl, rfl⟩

theorem initializeApp_second_events (i : Nat) (slot : Slot (List Sponsor))
    (re : Response (List Event)) (mid : AppState)
    (h : mid.pending[i]? = some (.initializeApp .waiting slot)) :
    ∃ s', resolve i (.initEvents re) mid = some s'
      ∧ (∀ events sponsors, re = .ok events → slot = .fulfilled sponsors →
          s'.events = events ∧ s'.sponsors = sponsors)
      ∧ (re.fulfils = false ∨ slot = .rejected →
          s'.events = mid.events ∧ s'.sponsors = mid.sponsors) := by
  rw [resolve_initEvents i re slot mid h]
  refine ⟨_, rfl, ?_, ?_⟩
  · rintro events sponsors rfl rfl
    exact ⟨rfl, rfl⟩
  · intro hfail
    obtain ⟨he, hs⟩ := cache_settle i mid (initEventsResume re slot mid)
    rw [he, hs]
    rcases re with events | d | message
    · rcases hfail with hre | hslot
      · cases hre
      · subst hslot
        exact ⟨rfl, rfl⟩
    · cases d <;> cases slot <;> exact ⟨rfl, rfl⟩
    · cases slot <;> exact ⟨rfl, rfl⟩

/-- C11: one run of `initializeApp` from any page, with any pair of answers to the
list-events and list-sponsors calls arriving in either order, writes the cache all
or nothing: issuing the calls and the first answer alone leave `state.events` and
`state.sponsors` as they were; once both calls have answered, if both succeeded
`state.events` and `state.sponsors` are exactly the two lists returned, and if
either failed both are exactly what they were before the run. -/
theorem initializeApp_all_or_nothing (s : AppState) (eventsFirst : Bool)
    (re : Response (List Event)) (rs : Response (List Sponsor)) :
    ((initializeApp s).events = s.events ∧ (initializeApp s).sponsors = s.sponsors)
    ∧ (∃ mid, initializeAppFirstAnswer eventsFirst re rs s = some mid
        ∧ mid.events = s.events ∧ mid.sponsors = s.sponsors)
    ∧ ∃ s', initializeAppRun eventsFirst re rs s = some s'
        ∧ (∀ events sponsors, re = .ok events → rs = .ok sponsors →
            s'.events = events ∧ s'.sponsors = sponsors)
        ∧ (re.fulfils = false ∨ rs.fulfils = false →
            s'.events = s.events ∧ s'.sponsors = s.sponsors) := by
  refine ⟨⟨rfl, rfl⟩, ?_⟩
  cases eventsFirst with
  | true =>
    obtain ⟨mid, slot, hmid, hpend, hev, hsp, hok, hfail⟩ := initializeApp_first_events re s
    obtain ⟨s', hs', hboth, hnone⟩ :=
      initializeApp_second_sponsors s.pending.length slot rs mid hpend
    refine ⟨⟨mid, ?_, hev, hsp⟩, s', ?_, ?_, ?_⟩
    · simp only [initializeAppFirstAnswer, if_true]
      exact hmid
    · simp only [initializeAppRun, if_true, hmid, Option.some_bind]
      exact hs'
    · intro events sponsors hre hrs
      exact hboth events sponsors (hok events hre) hrs
    · intro h
      rw [← hev, ← hsp]
      rcases h with h | h
      · exact hnone (Or.inl (hfail h))
      · exact hnone (Or.inr h)
  | false =>
    obtain ⟨mid, slot, hmid, hpend, hev, hsp, hok, hfail⟩ := initializeApp_first_sponsors rs s
    obtain ⟨s', hs', hboth, hnone⟩ :=
      initializeApp_second_events s.pending.length slot re mid hpend
    refine ⟨⟨mid, ?_, hev, hsp⟩, s', ?_, ?_, ?_⟩
    · simp only [initializeAppFirstAnswer, Bool.false_eq_true, if_false]
      exact hmid
    · simp only [initializeAppRun, Bool.false_eq_true, if_false, hmid, Option.some_bind]
      exact hs'
    · intro events sponsors hre hrs
      exact hboth events sponsors hre (hok sponsors hrs)
    · intro h
      rw [← hev, ← hsp]
      rcases h with h | h
      · exact hnone (Or.inl h)
      · exact hnone (Or.inr (hfail h))

/-! ## The backdrop and the modal surfaces -/

theorem backdrop_after_step (a : ModalAction) (s : AppState) :
    (anyModalVisible (a.run s) = true → (a.run s).modalBackdropHidden = false)
      ↔ a.closesAlone s = true := by
  cases a with
  | openModal modal =>
    cases modal <;>
      simp [ModalAction.run, ModalAction.closesAlone, openModal, setModalHidden]
  | showInfoModal content =>
    simp [ModalAction.run, ModalAction.closesAlone, showInfoModal, openModal, setModalHidden]
  | closeModal modal =>
    cases modal <;>
      simp [ModalAction.run, ModalAction.closesAlone, closeModal, setModalHidden,
        otherModalVisible, anyModalVisible, modalVisible]

theorem backdrop_after_runClosingAlone (actions : List ModalAction) (s s' : AppState)
    (hinv : anyModalVisible s = true → s.modalBackdropHidden = false)
    (h : runClosingAlone actions s = some s') :
    anyModalVisible s' = true → s'.modalBackdropHidden = false := by
  induction actions generalizing s with
  | nil =>
    simp only [runClosingAlone, Option.some.injEq] at h
    rw [← h]
    exact hinv
  | cons a rest ih =>
    unfold runClosingAlone at h
    split at h
    · next ha => exact ih (a.run s) ((backdrop_after_step a s).mpr ha) h
    · cases h

/-- C12 (as amended): in every state reached from the initial page (backdrop and all modals
hidden) by a sequence of `openModal` / `showInfoModal` / `closeModal` steps none
of which is a `closeModal` applied while a surface other than the one it closes is
on display (surfaces may be opened over one another, and a hidden surface may be
closed), the backdrop is on display whenever at least one modal is; and a further
step keeps it so exactly when it is not such a `closeModal`. -/
theorem backdrop_visible_unless_closed_beside_another (formDefaults : CreateEventForm)
    (sponsorsInForm : Bool) (actions : List ModalAction) (s : AppState)
    (h : runClosingAlone actions (initialState formDefaults sponsorsInForm) = some s) :
    (anyModalVisible s = true → s.modalBackdropHidden = false)
    ∧ ∀ a : ModalAction,
        (anyModalVisible (a.run s) = true → (a.run s).modalBackdropHidden = false)
          ↔ a.closesAlone s = true := by
  refine ⟨?_, fun a => backdrop_after_step a s⟩
  refine backdrop_after_runClosingAlone actions _ s ?_ h
  intro hvisible
  simp [anyModalVisible, modalVisible, initialState] at hvisible

theorem runClosingAlone_sponsorDialogOverFormSteps :
    runClosingAlone sponsorDialogOverFormSteps (initialState emptyForm true)
      = some sponsorDialogOverFormState := by
  decide

/-- C12 (witness): closing the hidden info modal, opening and closing the bookings
modal, opening the create-event form and opening the add-sponsor dialog from
inside it is such a sequence; it ends with the form and the dialog both on display
over the backdrop. -/
theorem backdrop_visible_under_sponsor_dialog_over_form :
    runClosingAlone sponsorDialogOverFormSteps (initialState emptyForm true)
      = some sponsorDialogOverFormState
    ∧ modalVisible .createEventModal sponsorDialogOverFormState = true
    ∧ modalVisible .infoModal sponsorDialogOverFormState = true
    ∧ (anyModalVisible sponsorDialogOverFormState = true
        → sponsorDialogOverFormState.modalBackdropHidden = false)
    ∧ ∀ a : ModalAction,
        (anyModalVisible (a.run sponsorDialogOverFormState) = true
            → (a.run sponsorDialogOverFormState).modalBackdropHidden = false)
          ↔ a.closesAlone sponsorDialogOverFormState = true :=
  ⟨runClosingAlone_sponsorDialogOverFormSteps, by decide, by decide,
    backdrop_visible_unless_closed_beside_another emptyForm true sponsorDialogOverFormSteps
      sponsorDialogOverFormState runClosingAlone_sponsorDialogOverFormSteps⟩

/-- C12 (counterexample): from the initial page, opening the create-event form, opening the
add-sponsor dialog from inside it and dismissing that dialog leaves the
create-event form on display with the backdrop hidden; and confirming the deletion
of an event, dismissing the confirmation and opening the bookings modal before the
deletion is answered leaves, once it is answered, the bookings modal on display
with the backdrop hidden. -/
theorem backdrop_hidden_under_visible_surface :
    (clickInfoModalCloseBtn
        (showAddSponsorFormListener (showCreateModalListener (initialState emptyForm true)))).map
      (fun s => (anyModalVisible s, modalVisible .createEventModal s, s.modalBackdropHidden))
      = some (true, true, true)
    ∧ ((((clickConfirmDeleteBtn (handleDeleteEvent 1 "Gala" (initialState emptyForm true))).bind
          clickInfoModalCloseBtn).map (handleViewBookings 1 "Gala")).bind
        (resolve 0 (.deleteEvent (.ok ())))).map
      (fun s => (anyModalVisible s, modalVisible .bookingsModal s, s.modalBackdropHidden))
      = some (true, true, true) := by
  decide

end EventManagement
